import Mathlib

/-!
Verification of the pyOneNote revision-store parser against its
natural-language specification.  The definitions below are a shallow
embedding of the Python source (FileNode.py, OneDocument.py): byte input
is modelled as a total function from offsets to byte values, the
positional reader as an explicit offset, and each Python class
constructor as a Lean function that consumes bytes and returns the
decoded structure together with the new offset.  Fallible paths return
Option/Except.  The theorems settle the frozen claims about the parser.
-/

namespace PyOneNote

/-! ## Byte-level reader primitives

The Python code reads through `struct.unpack` on a file handle.  We model
the file as a total byte source `b : Nat → Nat`; every access is taken
mod 256 so that arbitrary functions denote byte streams. -/

/-- Byte at offset `i` of the backing stream. -/
def byteAt (b : Nat → Nat) (i : Nat) : Nat := b i % 256

/-- Little-endian unsigned integer of `w` bytes starting at `pos`
(the common meaning of `struct.unpack` codes H / I / Q). -/
def readLE (b : Nat → Nat) : Nat → Nat → Nat
  | _, 0 => 0
  | pos, Nat.succ w => byteAt b pos + 256 * readLE b (pos + 1) w

/-- u16 little-endian. -/
def readU16 (b : Nat → Nat) (pos : Nat) : Nat := readLE b pos 2

/-- u32 little-endian. -/
def readU32 (b : Nat → Nat) (pos : Nat) : Nat := readLE b pos 4

/-- u64 little-endian. -/
def readU64 (b : Nat → Nat) (pos : Nat) : Nat := readLE b pos 8

/-- Raw byte string of length `n` at `pos` (struct code `ns`). -/
def readBytes (b : Nat → Nat) (pos n : Nat) : List Nat :=
  (List.range n).map (fun i => byteAt b (pos + i))

/-! ## FileNodeChunkReference (FileNode.py, class FileNodeChunkReference)

`__init__` keeps the decoded `stp`/`cb` (already multiplied by 8 for the
compressed formats) plus the format-specific `invalid` sentinel, and
`isFcrNil` tests `(stp & invalid) == invalid and cb == 0`. -/

structure FileNodeChunkReference where
  stp : Nat
  cb : Nat
  invalid : Nat
deriving DecidableEq

/-- The `self.invalid` sentinel assigned per `stpFormat` branch.
`stpFormat` is a 2-bit header field, so only 0–3 occur; the catch-all
stands for the `stpFormat == 3` branch. -/
def stpInvalid : Nat → Nat
  | 0 => 0xffffffffffffffff
  | 1 => 0xffffffff
  | 2 => 0x7fff8
  | _ => 0x7fffffff8

/-- Bit width of the raw `stp` field read for each `stpFormat`
(Q = 8 bytes, I = 4 bytes, H = 2 bytes). -/
def stpWidthBits : Nat → Nat
  | 0 => 64
  | 1 => 32
  | 2 => 16
  | _ => 32

/-- `FileNodeChunkReference.__init__` on already-extracted raw fields:
formats 2 and 3 store `stp * 8`, cb formats 2 and 3 store `cb * 8`. -/
def mkFileNodeChunkReference (stpFormat cbFormat rawStp rawCb : Nat) :
    FileNodeChunkReference :=
  { stp := if stpFormat == 2 || stpFormat == 3 then rawStp * 8 else rawStp
    cb := if cbFormat == 2 || cbFormat == 3 then rawCb * 8 else rawCb
    invalid := stpInvalid stpFormat }

/-- `isFcrNil` exactly as written in the source:
`(self.stp & self.invalid) == self.invalid and self.cb == 0`. -/
def FileNodeChunkReference.isFcrNil (r : FileNodeChunkReference) : Bool :=
  (r.stp &&& r.invalid == r.invalid) && (r.cb == 0)

/-- The raw nil sentinel per `stpFormat` named by the specification
(0xFFFF…FF for 0, 0xFFFFFFFF for 1, 0xFFFF for 2, 0xFFFFFFFF for 3). -/
def stpSentinelRaw : Nat → Nat
  | 0 => 0xffffffffffffffff
  | 1 => 0xffffffff
  | 2 => 0xffff
  | _ => 0xffffffff

/-- `FileChunkReference64x32.__init__`: stp is u64, cb is u32, and the
sentinel is 0xFFFFFFFFFFFFFFFF. -/
def decodeFileChunkReference64x32 (b : Nat → Nat) (pos : Nat) :
    FileNodeChunkReference :=
  { stp := readU64 b pos
    cb := readU32 b (pos + 8)
    invalid := 0xffffffffffffffff }

/-! ## ExtendedGUID, CompactID and the id streams

`ExtendedGUID` is a 16-byte guid plus a u32; we keep the guid as the
little-endian value.  `CompactID.__init__` unpacks a u32 into `n` (low 8
bits) and `guidIndex` (high 24 bits) and snapshots the document's
`cur_revision`. -/

structure ExtendedGUID where
  guid : Nat
  n : Nat
deriving DecidableEq

structure CompactID where
  n : Nat
  guidIndex : Nat
  currentRevision : Option ExtendedGUID
deriving DecidableEq

/-- `CompactID.__init__` on the unpacked u32. -/
def mkCompactID (data : Nat) (curRevision : Option ExtendedGUID) : CompactID :=
  { n := data &&& 0xff
    guidIndex := data >>> 8
    currentRevision := curRevision }

/-- `ObjectSpaceObjectStreamOfIDs`: a decoded body of CompactIDs plus the
`head` cursor (initialised to 0 by `__init__`). -/
structure ObjectSpaceObjectStreamOfIDs where
  body : List CompactID
  head : Nat
deriving DecidableEq

/-- `read` exactly as written in the source: it returns `body[head]`
when `head < len(body)` and `None` otherwise, and the returned stream
state is the input unchanged because the method never assigns `head`. -/
def ObjectSpaceObjectStreamOfIDs.read (s : ObjectSpaceObjectStreamOfIDs) :
    Option CompactID × ObjectSpaceObjectStreamOfIDs :=
  (if s.head < s.body.length then s.body[s.head]? else none, s)

/-- `reset` sets `head` back to 0. -/
def ObjectSpaceObjectStreamOfIDs.reset (s : ObjectSpaceObjectStreamOfIDs) :
    ObjectSpaceObjectStreamOfIDs :=
  { s with head := 0 }

/-- `PropertySet.get_compact_ids`: perform `count` calls to
`stream.read()`, collecting the results, threading the stream state. -/
def get_compact_ids :
    ObjectSpaceObjectStreamOfIDs → Nat →
      List (Option CompactID) × ObjectSpaceObjectStreamOfIDs
  | s, 0 => ([], s)
  | s, Nat.succ k =>
    let (r, s1) := s.read
    let (rest, s2) := get_compact_ids s1 k
    (r :: rest, s2)

/-! ## PropertyID and the PropertySet decoder (FileNode.py, class PropertySet) -/

structure PropertyID where
  value : Nat
  id : Nat
  ptype : Nat
  boolValue : Bool
deriving DecidableEq

/-- `PropertyID.__init__`: id is the low 26 bits, `type` (here `ptype`)
the next 5, `boolValue` the top bit. -/
def mkPropertyID (v : Nat) : PropertyID :=
  { value := v
    id := v &&& 0x3ffffff
    ptype := (v >>> 26) &&& 0x1f
    boolValue := ((v >>> 31) &&& 1) == 1 }

/-- The first loop of `PropertySet.__init__`: `cProperties` PropertyIDs,
4 bytes each. -/
def readPrids (b : Nat → Nat) : Nat → Nat → List PropertyID
  | 0, _ => []
  | Nat.succ k, pos => mkPropertyID (readU32 b pos) :: readPrids b k (pos + 4)

/-- A decoded `rgData` element.  `childSet` carries the fields of a
nested PropertySet (type 0x11). -/
inductive PropValue where
  | noneVal : PropValue
  | boolVal : Bool → PropValue
  | bytesVal : List Nat → PropValue
  | prtData : Nat → List Nat → PropValue
  | cidsVal : List (Option CompactID) → PropValue
  | childSet : Nat → List PropertyID → List PropValue → PropValue

structure PropertySetM where
  cProperties : Nat
  rgPrids : List PropertyID
  rgData : List PropValue

/-- The exceptions `PropertySet.__init__` can raise, plus fuel
exhaustion of the embedding (the Python recursion has no fuel). -/
inductive PropError where
  | notImplemented : PropError
  | invalidType : PropError
  | outOfFuel : PropError
deriving DecidableEq

/-- One iteration of the value loop of `PropertySet.__init__`, on a
single PropertyID.  `decPS` is the recursive call used by the nested
property-set case (type 0x11); the three streams are the `OIDs`,
`OSIDs`, `ContextIDs` arguments shared by the recursion.  Every branch
mirrors the corresponding `elif prop_type == …` arm of the source. -/
def decodeOneVal (b : Nat → Nat)
    (OIDs OSIDs ContextIDs : ObjectSpaceObjectStreamOfIDs)
    (decPS : Nat → Except PropError (PropertySetM × Nat))
    (prid : PropertyID) (pos : Nat) : Except PropError (PropValue × Nat) :=
  let t := prid.ptype
  if t == 0x1 then .ok (.noneVal, pos)
  else if t == 0x2 then .ok (.boolVal prid.boolValue, pos)
  else if t == 0x3 then .ok (.bytesVal (readBytes b pos 1), pos + 1)
  else if t == 0x4 then .ok (.bytesVal (readBytes b pos 2), pos + 2)
  else if t == 0x5 then .ok (.bytesVal (readBytes b pos 4), pos + 4)
  else if t == 0x6 then .ok (.bytesVal (readBytes b pos 8), pos + 8)
  else if t == 0x7 then
    let cb := readU32 b pos
    .ok (.prtData cb (readBytes b (pos + 4) cb), pos + 4 + cb)
  else if t == 0x8 then .ok (.cidsVal (get_compact_ids OIDs 1).1, pos)
  else if t == 0x9 then
    let count := readU32 b pos
    .ok (.cidsVal (get_compact_ids OIDs count).1, pos + 4)
  else if t == 0xA then .ok (.cidsVal (get_compact_ids OSIDs 1).1, pos)
  else if t == 0xB then
    let count := readU32 b pos
    .ok (.cidsVal (get_compact_ids OSIDs count).1, pos + 4)
  else if t == 0xC then .ok (.cidsVal (get_compact_ids ContextIDs 1).1, pos)
  else if t == 0xD then
    let count := readU32 b pos
    .ok (.cidsVal (get_compact_ids ContextIDs count).1, pos + 4)
  else if t == 0x10 then .error .notImplemented
  else if t == 0x11 then
    match decPS pos with
    | .ok (ps, p) => .ok (.childSet ps.cProperties ps.rgPrids ps.rgData, p)
    | .error e => .error e
  else .error .invalidType

/-- The value loop of `PropertySet.__init__`: one value per PropertyID,
in order, threading the byte position. -/
def decodeVals (b : Nat → Nat)
    (OIDs OSIDs ContextIDs : ObjectSpaceObjectStreamOfIDs)
    (decPS : Nat → Except PropError (PropertySetM × Nat)) :
    List PropertyID → Nat → Except PropError (List PropValue × Nat)
  | [], pos => .ok ([], pos)
  | prid :: rest, pos =>
    match decodeOneVal b OIDs OSIDs ContextIDs decPS prid pos with
    | .ok (v, p1) =>
      match decodeVals b OIDs OSIDs ContextIDs decPS rest p1 with
      | .ok (vs, p2) => .ok (v :: vs, p2)
      | .error e => .error e
    | .error e => .error e

/-- `PropertySet.__init__`: read u16 `cProperties`, then `cProperties`
PropertyIDs (4 bytes each), then the values.  Nested property sets
recurse with one unit of fuel less and the same three streams. -/
def decodePropertySet (b : Nat → Nat)
    (OIDs OSIDs ContextIDs : ObjectSpaceObjectStreamOfIDs) :
    Nat → Nat → Except PropError (PropertySetM × Nat)
  | 0, _ => .error .outOfFuel
  | Nat.succ fuel, pos =>
    let c := readU16 b pos
    let prids := readPrids b c (pos + 2)
    match decodeVals b OIDs OSIDs ContextIDs
        (decodePropertySet b OIDs OSIDs ContextIDs fuel) prids
        (pos + 2 + 4 * c) with
    | .ok (vs, p) => .ok ({ cProperties := c, rgPrids := prids, rgData := vs }, p)
    | .error e => .error e

/-! ## FileNodeHeader (FileNode.py, class FileNodeHeader) -/

/-- Uppercase hexadecimal digit, as produced by Python's `{:X}` format. -/
def hexDigit (n : Nat) : Char :=
  if n < 10 then Char.ofNat (48 + n) else Char.ofNat (55 + n)

/-- Python `"0x{:03X}".format(id)` without the prefix text: three
zero-padded uppercase hex digits (the id is a 10-bit field, so three
digits always suffice). -/
def hex3 (n : Nat) : String :=
  String.mk [hexDigit (n / 256), hexDigit (n / 16 % 16), hexDigit (n % 16)]

/-- The `_FileNodeIDs` table of `FileNodeHeader`, reduced to the
id → type-name association actually consulted by `__init__`. -/
def fileNodeIDNames : List (Nat × String) :=
  [ (0x004, "ObjectSpaceManifestRootFND")
  , (0x008, "ObjectSpaceManifestListReferenceFND")
  , (0x00C, "ObjectSpaceManifestListStartFND")
  , (0x010, "RevisionManifestListReferenceFND")
  , (0x014, "RevisionManifestListStartFND")
  , (0x01B, "RevisionManifestStart4FND")
  , (0x01C, "RevisionManifestEndFND")
  , (0x01E, "RevisionManifestStart6FND")
  , (0x01F, "RevisionManifestStart7FND")
  , (0x021, "GlobalIdTableStartFNDX")
  , (0x022, "GlobalIdTableStart2FND")
  , (0x024, "GlobalIdTableEntryFNDX")
  , (0x025, "GlobalIdTableEntry2FNDX")
  , (0x026, "GlobalIdTableEntry3FNDX")
  , (0x028, "GlobalIdTableEndFNDX")
  , (0x02D, "ObjectDeclarationWithRefCountFNDX")
  , (0x02E, "ObjectDeclarationWithRefCount2FNDX")
  , (0x041, "ObjectRevisionWithRefCountFNDX")
  , (0x042, "ObjectRevisionWithRefCount2FNDX")
  , (0x059, "RootObjectReference2FNDX")
  , (0x05A, "RootObjectReference3FND")
  , (0x05C, "RevisionRoleDeclarationFND")
  , (0x05D, "RevisionRoleAndContextDeclarationFND")
  , (0x072, "ObjectDeclarationFileData3RefCountFND")
  , (0x073, "ObjectDeclarationFileData3LargeRefCountFND")
  , (0x07C, "ObjectDataEncryptionKeyV2FNDX")
  , (0x084, "ObjectInfoDependencyOverridesFND")
  , (0x08C, "DataSignatureGroupDefinitionFND")
  , (0x090, "FileDataStoreListReferenceFND")
  , (0x094, "FileDataStoreObjectReferenceFND")
  , (0x0A4, "ObjectDeclaration2RefCountFND")
  , (0x0A5, "ObjectDeclaration2LargeRefCountFND")
  , (0x0B0, "ObjectGroupListReferenceFND")
  , (0x0B4, "ObjectGroupStartFND")
  , (0x0B8, "ObjectGroupEndFND")
  , (0x0C2, "HashedChunkDescriptor2FND")
  , (0x0C4, "ReadOnlyObjectDeclaration2RefCountFND")
  , (0x0C5, "ReadOnlyObjectDeclaration2LargeRefCountFND")
  , (0x0FF, "ChunkTerminatorFND") ]

/-- The ids the dispatcher recognizes (the keys of `_FileNodeIDs`). -/
def recognizedFileNodeIds : List Nat := fileNodeIDNames.map Prod.fst

/-- Type-name resolution in `FileNodeHeader.__init__`: table hit, or the
`UnknownType_0x{:03X}` fallback. -/
def fileNodeTypeName (id : Nat) : String :=
  match fileNodeIDNames.lookup id with
  | some s => s
  | none => "UnknownType_0x" ++ hex3 id

structure FileNodeHeader where
  file_node_id : Nat
  file_node_type : String
  size : Nat
  stpFormat : Nat
  cbFormat : Nat
  baseType : Nat
  reserved : Nat
deriving DecidableEq

/-- `FileNodeHeader.__init__` on the unpacked u32: the bit layout
`id:10 | size:13 | stpFormat:2 | cbFormat:2 | baseType:4 | reserved:1`. -/
def mkFileNodeHeader (v : Nat) : FileNodeHeader :=
  { file_node_id := v &&& 0x3ff
    file_node_type := fileNodeTypeName (v &&& 0x3ff)
    size := (v >>> 10) &&& 0x1fff
    stpFormat := (v >>> 23) &&& 0x3
    cbFormat := (v >>> 25) &&& 0x3
    baseType := (v >>> 27) &&& 0xf
    reserved := v >>> 31 }

/-! ## FileNodeListFragment walker (FileNode.py, class FileNodeListFragment)

The node loop of `FileNodeListFragment.__init__` is modelled over an
abstract node decoder `decode : Nat → FileNodeHeader × Nat` (the
position-to-node function realised by `FileNode.__init__` on the actual
byte stream); the loop itself only inspects `tell()` and the decoded
node's `file_node_id`, exactly as the source does. -/

/-- The `while fh_onenote.tell() + 24 < end` loop: decode a node, append
it, stop after a node with id 255 or 0.  `none` means the fuel ran out
(the Python loop has no fuel).  Returns the nodes and the final
position. -/
def fragmentLoop (decode : Nat → FileNodeHeader × Nat) (sectionEnd : Nat) :
    Nat → Nat → Option (List FileNodeHeader × Nat)
  | 0, _ => none
  | Nat.succ fuel, pos =>
    if pos + 24 < sectionEnd then
      let (node, p1) := decode pos
      if node.file_node_id == 255 || node.file_node_id == 0 then
        some ([node], p1)
      else
        match fragmentLoop decode sectionEnd fuel p1 with
        | some (ns, p2) => some (node :: ns, p2)
        | none => none
    else
      some ([], pos)

/-- Position of the reader before the k-th node when decoding starts at
`pos`: iterate the decoder's position component. -/
def posAt (decode : Nat → FileNodeHeader × Nat) (pos : Nat) : Nat → Nat
  | 0 => pos
  | Nat.succ k => (decode (posAt decode pos k)).2

structure FileNodeListFragmentM where
  uintMagic : Nat
  fileNodeListID : Nat
  nFragmentSequence : Nat
  fileNodes : List FileNodeHeader
  nextFragment : FileNodeChunkReference
  footer : Nat
deriving DecidableEq

/-- `FileNodeListFragment.__init__` at offset `stp` with section size
`cb`: the 16-byte FileNodeListHeader (magic, list id, sequence number),
the node loop, then `seek(end - 20)`, a 12-byte FileChunkReference64x32
and the 8-byte footer. -/
def parseFileNodeListFragment (decode : Nat → FileNodeHeader × Nat)
    (b : Nat → Nat) (stp cb fuel : Nat) : Option FileNodeListFragmentM :=
  let sectionEnd := stp + cb
  match fragmentLoop decode sectionEnd fuel (stp + 16) with
  | some (ns, _) => some
    { uintMagic := readU64 b stp
      fileNodeListID := readU32 b (stp + 8)
      nFragmentSequence := readU32 b (stp + 12)
      fileNodes := ns
      nextFragment := decodeFileChunkReference64x32 b (sectionEnd - 20)
      footer := readU64 b (sectionEnd - 8) }
  | none => none

/-- `FileNodeList.__init__`: parse fragments, following `nextFragment`
until it is nil.  No property of the headers (in particular not
`FileNodeListID`) is compared between fragments. -/
def parseFileNodeListM (decode : Nat → FileNodeHeader × Nat)
    (b : Nat → Nat) : Nat → Nat → Nat → Nat →
    Option (List FileNodeListFragmentM)
  | 0, _, _, _ => none
  | Nat.succ chainFuel, stp, cb, fuel =>
    match parseFileNodeListFragment decode b stp cb fuel with
    | some fr =>
      if fr.nextFragment.isFcrNil then some [fr]
      else
        match parseFileNodeListM decode b chainFuel fr.nextFragment.stp
            fr.nextFragment.cb fuel with
        | some rest => some (fr :: rest)
        | none => none
    | none => none

/-! ## Unknown FileNode ids (FileNode.py, FileNode.__init__)

For an id absent from `_FileNodeIDs` no dispatch branch matches; the
`else` arm (`p = 1`) reads nothing and sets no `data` attribute, so the
reader stays at the end of the 4-byte header.  The trailing
`baseType == 2` block would then dereference the missing `data`
attribute, which in Python raises AttributeError. -/

def decodeFileNodeUnknown (b : Nat → Nat) (pos : Nat) :
    Except String (FileNodeHeader × Nat) :=
  let h := mkFileNodeHeader (readU32 b pos)
  if h.baseType == 2 then .error "AttributeError: data"
  else .ok (h, pos + 4)

/-! ## CompactID rendering against the Global Identification Table
(FileNode.py, `CompactID.__str__` / `__repr__`)

The source renders
`'<ExtendedGUID> ({}, {})'.format(table[current_revision][guidIndex], n)`
by direct dictionary indexing; a missing key raises KeyError, modelled
as `none`. -/

/-- The nested dictionary `document._global_identification_table`,
keyed by the current revision and the table index. -/
def GidTable : Type := Option ExtendedGUID → Nat → Option Nat

/-- `CompactID.__str__`: successful lookup produces the formatted
string; an absent `(revision, guidIndex)` pair is a KeyError (`none`). -/
def renderCompactID (table : GidTable) (cid : CompactID) : Option String :=
  match table cid.currentRevision cid.guidIndex with
  | some g =>
    some ("<ExtendedGUID> (" ++ toString g ++ ", " ++ toString cid.n ++ ")")
  | none => none

/-! ## Document state updated by the FileNode dispatcher
(FileNode.py, FileNode.__init__)

Only four dispatch branches touch `document.cur_revision` or
`document._global_identification_table`: the three
RevisionManifestStart nodes and GlobalIdTableEntryFNDX.  Every other
branch decodes its body without writing either field.  `NodeEvent`
abstracts one decoded FileNode by the data those branches use. -/

inductive NodeEvent where
  | revisionManifestStart4 (rid ridDependent : ExtendedGUID)
  | revisionManifestStart6 (rid ridDependent : ExtendedGUID)
  | revisionManifestStart7 (base_rid base_ridDependent gctxid : ExtendedGUID)
  | globalIdTableEntry (index : Nat) (guid : Nat)
  | otherNode
deriving DecidableEq

structure DocState where
  curRevision : Option ExtendedGUID
  gidt : GidTable

/-- The side effects of one `FileNode.__init__` dispatch on the document
state: `self.document.cur_revision = self.data.rid` (Start4/Start6),
`= self.data.base.rid` (Start7), and the GlobalIdTableEntryFNDX insert
`table[cur_revision][index] = guid`. -/
def dispatchStep (s : DocState) (e : NodeEvent) : DocState :=
  match e with
  | .revisionManifestStart4 rid _ => { s with curRevision := some rid }
  | .revisionManifestStart6 rid _ => { s with curRevision := some rid }
  | .revisionManifestStart7 base_rid _ _ => { s with curRevision := some base_rid }
  | .globalIdTableEntry index guid =>
    { s with gidt := fun r i =>
        if r = s.curRevision ∧ i = index then some guid else s.gidt r i }
  | .otherNode => s

/-- Does this node kind set `cur_revision`? -/
def isRevisionStart : NodeEvent → Bool
  | .revisionManifestStart4 _ _ => true
  | .revisionManifestStart6 _ _ => true
  | .revisionManifestStart7 _ _ _ => true
  | _ => false

/-- Dispatch a sequence of nodes in file order. -/
def processNodes (s : DocState) (es : List NodeEvent) : DocState :=
  es.foldl dispatchStep s

/-! ## Save/restore of the reader position (claim C9)

The reader holds one cursor; three routines seek away from it and must
come back.  Each is modelled as the exact `tell`/`seek` sequence of the
source, with the temporarily-invoked decoder abstracted as an arbitrary
position transformer (it may seek anywhere). -/

structure Reader where
  pos : Nat
deriving DecidableEq

/-- `FileNode.__init__`, ObjectDeclaration2RefCountFND branch, after the
body has been decoded (`r` is at the end of the body):
`current_offset = tell(); if IsPropertySet: seek(ref.stp); decode
property set; seek(current_offset)`. -/
def handleObjectDeclaration2RefCountFND (r : Reader) (refStp : Nat)
    (isPropertySet : Bool) (decodePropSet : Reader → Reader) : Reader :=
  let current_offset := r.pos
  let r1 := if isPropertySet then decodePropSet { pos := refStp } else r
  { r1 with pos := current_offset }

/-- `FileDataStoreObjectReferenceFND.__init__`: read the chunk reference
(`refSize` bytes) and the 16-byte guid, then `current_offset = tell();
seek(ref.stp); decode FileDataStoreObject; seek(current_offset)`. -/
def handleFileDataStoreObjectReferenceFND (r : Reader) (refSize refStp : Nat)
    (decodeFileDataStoreObject : Reader → Reader) : Reader :=
  let r1 : Reader := { pos := r.pos + refSize + 16 }
  let current_offset := r1.pos
  let r2 := decodeFileDataStoreObject { r1 with pos := refStp }
  { r2 with pos := current_offset }

/-- End of `FileNode.__init__`: `current_offset = tell(); if baseType ==
2: recurse into the child FileNodeList; seek(current_offset)`. -/
def handleBaseType2 (r : Reader) (baseType : Nat)
    (recurseSubList : Reader → Reader) : Reader :=
  let current_offset := r.pos
  let r1 := if baseType == 2 then recurseSubList r else r
  { r1 with pos := current_offset }

/-! ## The files() query (OneDocument.py, OneDocument.get_files)

Inner per-guid records are Python dicts initialised to
`{"extension": "", "content": "", "identity": ""}`; we model both the
outer `_files` dict and the inner records as insertion-ordered
association lists with Python dict assignment semantics. -/

/-- Python dict assignment `d[k] = v`: overwrite in place if the key
exists, append otherwise. -/
def pyDictSet {κ β : Type} [DecidableEq κ] (m : List (κ × β)) (k : κ) (v : β) :
    List (κ × β) :=
  if (m.lookup k).isSome then
    m.map (fun p => if p.1 = k then (k, v) else p)
  else m ++ [(k, v)]

/-- The fresh record `{"extension": "", "content": "", "identity": ""}`. -/
def initFileEntry : List (String × String) :=
  [("extension", ""), ("content", ""), ("identity", "")]

/-- The two node kinds `get_files` collates, carrying exactly the fields
it reads: `str(guidReference)` and `fileDataStoreObject.FileData` for
FileDataStoreObjectReferenceFND; `FileDataReference.StringData`,
`Extension.StringData` and `str(oid)` for
ObjectDeclarationFileData3RefCountFND.  Byte content is kept as an
opaque string. -/
inductive FilesNode where
  | fdso (guidReference : String) (fileData : String)
  | odfd (fileDataReference : String) (extension : String) (oidStr : String)
deriving DecidableEq

/-- Python `str.replace` on character lists: replace non-overlapping
occurrences of `pattern` left to right.  The fuel argument is the length
of the subject string; every step consumes at least one character, so
the fuel never runs out on the initial call. -/
def pyReplaceGo (pattern replacement : List Char) : Nat → List Char → List Char
  | _, [] => []
  | 0, s => s
  | Nat.succ fuel, c :: rest =>
    if pattern.isPrefixOf (c :: rest) ∧ pattern ≠ [] then
      replacement ++
        pyReplaceGo pattern replacement fuel (List.drop pattern.length (c :: rest))
    else
      c :: pyReplaceGo pattern replacement fuel rest

/-- Python `str.replace`. -/
def pyReplace (s pattern replacement : String) : String :=
  String.mk (pyReplaceGo pattern.toList replacement.toList s.toList.length s.toList)

/-- Python `str.lower` restricted to ASCII (the guid strings this key
derivation manipulates are ASCII). -/
def pyLowerChar (c : Char) : Char :=
  if 'A' ≤ c ∧ c ≤ 'Z' then Char.ofNat (c.toNat + 32) else c

/-- Python `str.lower` on an ASCII string. -/
def pyLower (s : String) : String :=
  String.mk (s.toList.map pyLowerChar)

/-- Key derivation for ObjectDeclarationFileData3RefCountFND:
`.replace("<ifndf>\x7b", "").replace("\x7d", "").lower()`. -/
def odfdKey (s : String) : String :=
  pyLower (pyReplace (pyReplace s "<ifndf>\x7b" "") "\x7d" "")

/-- One iteration of the `for node in nodes` loop of `get_files`. -/
def getFilesStep (m : List (String × List (String × String)))
    (n : FilesNode) : List (String × List (String × String)) :=
  match n with
  | .fdso guidReference fileData =>
    let key := guidReference
    let m1 := if (m.lookup key).isSome then m else pyDictSet m key initFileEntry
    let e := (m1.lookup key).getD initFileEntry
    pyDictSet m1 key (pyDictSet e "content" fileData)
  | .odfd fileDataReference extension oidStr =>
    let key := odfdKey fileDataReference
    let m1 := if (m.lookup key).isSome then m else pyDictSet m key initFileEntry
    let e := (m1.lookup key).getD initFileEntry
    let e1 := pyDictSet e "extension" extension
    let e2 := pyDictSet e1 "identity" oidStr
    pyDictSet m1 key e2

/-- `get_files` on the traversal's node list (in file order), starting
from the empty `_files` dict. -/
def getFiles (nodes : List FilesNode) : List (String × List (String × String)) :=
  nodes.foldl getFilesStep []

/-- Current value of one field of the per-guid record, with the Python
dict defaults: "" when the guid or the field is absent. -/
def entryField (m : List (String × List (String × String)))
    (k field : String) : String :=
  match m.lookup k with
  | some e => (e.lookup field).getD ""
  | none => ""

/-- The key a node contributes to the files map. -/
def filesNodeKey : FilesNode → String
  | .fdso g _ => g
  | .odfd ref _ _ => odfdKey ref

/-- Is this a FileDataStoreObjectReferenceFND contributing key `k`? -/
def isFdsoWith (k : String) : FilesNode → Bool
  | .fdso g _ => g == k
  | _ => false

/-- Is this an ObjectDeclarationFileData3RefCountFND contributing key `k`? -/
def isOdfdWith (k : String) : FilesNode → Bool
  | .odfd ref _ _ => odfdKey ref == k
  | _ => false

/-- Content of the last FileDataStoreObjectReferenceFND with key `k` in
the prefix processed so far, starting from default `d`. -/
def lastFdsoContent (k : String) (d : String) (nodes : List FilesNode) : String :=
  nodes.foldl (fun acc n =>
    match n with
    | .fdso g c => if g = k then c else acc
    | _ => acc) d

/-- Extension of the last ObjectDeclarationFileData3RefCountFND with key
`k`, starting from default `d`. -/
def lastOdfdExtension (k : String) (d : String) (nodes : List FilesNode) : String :=
  nodes.foldl (fun acc n =>
    match n with
    | .odfd ref e _ => if odfdKey ref = k then e else acc
    | _ => acc) d

/-- Identity (oid string) of the last ObjectDeclarationFileData3RefCountFND
with key `k`, starting from default `d`. -/
def lastOdfdIdentity (k : String) (d : String) (nodes : List FilesNode) : String :=
  nodes.foldl (fun acc n =>
    match n with
    | .odfd ref _ o => if odfdKey ref = k then o else acc
    | _ => acc) d

/-! ## Concrete inputs used to settle individual claims -/

/-- A node decoder producing a plain 4-byte node of id 1 at every
position (a legal abstract instantiation of `FileNode.__init__`). -/
def c1decode : Nat → FileNodeHeader × Nat :=
  fun p => (mkFileNodeHeader 1, p + 4)

/-- Two distinguishable CompactIDs. -/
def c2cidA : CompactID := { n := 0, guidIndex := 0, currentRevision := none }

def c2cidB : CompactID := { n := 1, guidIndex := 1, currentRevision := none }

/-- A two-element id stream with its cursor at the start. -/
def c2stream : ObjectSpaceObjectStreamOfIDs := { body := [c2cidA, c2cidB], head := 0 }

/-- Bytes of a minimal property set: `cProperties = 1`, one PropertyID
with `type = 0x3` (value 0x0C000000), then the single 1-byte value 0xAB. -/
def c3bytes : Nat → Nat := fun i =>
  if i = 0 then 1 else if i = 5 then 0x0C else if i = 6 then 0xAB else 0

/-- An empty id stream. -/
def c3stream : ObjectSpaceObjectStreamOfIDs := { body := [], head := 0 }

/-- An empty Global Identification Table. -/
def c4table : GidTable := fun _ _ => none

/-- A CompactID with `n = 1`, `guidIndex = 5` under no revision
(1281 = 5 * 256 + 1). -/
def c4cid : CompactID := mkCompactID 1281 none

/-- Bytes whose u32 at offset 0 is 0x3003: FileNode header with
id = 0x003 (unrecognized) and size = 12. -/
def c5bytes : Nat → Nat := fun i =>
  if i = 0 then 0x03 else if i = 1 then 0x30 else 0

/-- Bytes of a two-fragment FileNodeList.  Fragment 1 occupies
[0, 40): header magic 0, list id bytes `a0..a3`, no nodes, and its
trailer points at fragment 2 (stp 100, cb 40).  Fragment 2 occupies
[100, 140): list id bytes `d0..d3`, no nodes, nil next-fragment
reference.  The list id of each fragment is freely choosable. -/
def c6bytes (a0 a1 a2 a3 d0 d1 d2 d3 : Nat) : Nat → Nat := fun i =>
  if i = 8 then a0 else if i = 9 then a1
  else if i = 10 then a2 else if i = 11 then a3
  else if i = 108 then d0 else if i = 109 then d1
  else if i = 110 then d2 else if i = 111 then d3
  else if i = 20 then 100
  else if i = 28 then 40
  else if 120 ≤ i ∧ i ≤ 127 then 255
  else 0

/-- An initial document state: no current revision, empty table. -/
def c7state : DocState := { curRevision := none, gidt := fun _ _ => none }

/-- A sample revision id. -/
def c7rid : ExtendedGUID := { guid := 11, n := 1 }

/-- A node list with no RevisionManifestStart nodes. -/
def c7others : List NodeEvent :=
  [NodeEvent.otherNode, NodeEvent.globalIdTableEntry 7 99, NodeEvent.otherNode]

/-- Traversal order for the files query: one content-contributing node
and one extension/identity-contributing node sharing the same guid, plus
a content-only node under another guid. -/
def c10nodes : List FilesNode :=
  [ FilesNode.fdso "1111" "PNGBYTES"
  , FilesNode.odfd "<ifndf>\x7b1111\x7d" ".png" "oid1"
  , FilesNode.fdso "2222" "JPGBYTES" ]

/-! ## Helper lemmas -/

/-- Bitwise and distributes over the ×8 store of compressed chunk
references. -/
theorem land_mul_eight (a c : Nat) : (a * 8) &&& (c * 8) = (a &&& c) * 8 := by
  have h8 : ∀ x : Nat, x * 8 = x <<< 3 := fun x => by
    rw [Nat.shiftLeft_eq]
  rw [h8 a, h8 c, h8 (a &&& c)]
  apply Nat.eq_of_testBit_eq
  intro i
  rcases Nat.lt_or_ge i 3 with hi | hi
  · simp [Nat.testBit_shiftLeft, Nat.not_le.mpr hi]
  · simp [Nat.testBit_shiftLeft, hi]

/-! ## Claim C8: the nil test on variable-width chunk references -/

/-- C8: for every variable-width FileNodeChunkReference, `isFcrNil`
returns true iff the raw `stp` equals the format's sentinel
(0xFFFFFFFFFFFFFFFF, 0xFFFFFFFF, 0xFFFF, 0xFFFFFFFF for formats
0, 1, 2, 3; the compressed formats test the ×8-stored values 0x7FFF8 and
0x7FFFFFFF8) and the `cb` field is 0. -/
theorem fcrNil_iff_sentinel (stpFormat cbFormat rawStp rawCb : Nat)
    (hf : stpFormat < 4) (hs : rawStp < 2 ^ stpWidthBits stpFormat) :
    (mkFileNodeChunkReference stpFormat cbFormat rawStp rawCb).isFcrNil = true ↔
      (rawStp = stpSentinelRaw stpFormat ∧
        (mkFileNodeChunkReference stpFormat cbFormat rawStp rawCb).cb = 0) := by
  have unfoldNil : ∀ r : FileNodeChunkReference,
      (r.isFcrNil = true ↔ (r.stp &&& r.invalid = r.invalid ∧ r.cb = 0)) :=
    fun r => by
      simp [FileNodeChunkReference.isFcrNil, Bool.and_eq_true, beq_iff_eq]
  interval_cases stpFormat
  · simp only [stpWidthBits] at hs
    have key : rawStp &&& 0xffffffffffffffff = rawStp := by
      have h64 : (0xffffffffffffffff : Nat) = 2 ^ 64 - 1 := by norm_num
      rw [h64]
      exact Nat.and_pow_two_sub_one_of_lt_two_pow hs
    rw [unfoldNil]
    have hstp : (mkFileNodeChunkReference 0 cbFormat rawStp rawCb).stp
        = rawStp := rfl
    have hinv : (mkFileNodeChunkReference 0 cbFormat rawStp rawCb).invalid
        = 0xffffffffffffffff := rfl
    have hsent : stpSentinelRaw 0 = 0xffffffffffffffff := rfl
    rw [hstp, hinv, hsent, key]
  · simp only [stpWidthBits] at hs
    have key : rawStp &&& 0xffffffff = rawStp := by
      have h32 : (0xffffffff : Nat) = 2 ^ 32 - 1 := by norm_num
      rw [h32]
      exact Nat.and_pow_two_sub_one_of_lt_two_pow hs
    rw [unfoldNil]
    have hstp : (mkFileNodeChunkReference 1 cbFormat rawStp rawCb).stp
        = rawStp := rfl
    have hinv : (mkFileNodeChunkReference 1 cbFormat rawStp rawCb).invalid
        = 0xffffffff := rfl
    have hsent : stpSentinelRaw 1 = 0xffffffff := rfl
    rw [hstp, hinv, hsent, key]
  · simp only [stpWidthBits] at hs
    have key : (rawStp * 8) &&& 0x7fff8 = rawStp * 8 := by
      have hsplit : (0x7fff8 : Nat) = 0xffff * 8 := by norm_num
      have hmask : rawStp &&& 0xffff = rawStp := by
        have h16 : (0xffff : Nat) = 2 ^ 16 - 1 := by norm_num
        rw [h16]
        exact Nat.and_pow_two_sub_one_of_lt_two_pow hs
      rw [hsplit, land_mul_eight, hmask]
    rw [unfoldNil]
    have hstp : (mkFileNodeChunkReference 2 cbFormat rawStp rawCb).stp
        = rawStp * 8 := rfl
    have hinv : (mkFileNodeChunkReference 2 cbFormat rawStp rawCb).invalid
        = 0x7fff8 := rfl
    have hsent : stpSentinelRaw 2 = 0xffff := rfl
    rw [hstp, hinv, hsent, key]
    exact and_congr_left' (by omega)
  · simp only [stpWidthBits] at hs
    have key : (rawStp * 8) &&& 0x7fffffff8 = rawStp * 8 := by
      have hsplit : (0x7fffffff8 : Nat) = 0xffffffff * 8 := by norm_num
      have hmask : rawStp &&& 0xffffffff = rawStp := by
        have h32 : (0xffffffff : Nat) = 2 ^ 32 - 1 := by norm_num
        rw [h32]
        exact Nat.and_pow_two_sub_one_of_lt_two_pow hs
      rw [hsplit, land_mul_eight, hmask]
    rw [unfoldNil]
    have hstp : (mkFileNodeChunkReference 3 cbFormat rawStp rawCb).stp
        = rawStp * 8 := rfl
    have hinv : (mkFileNodeChunkReference 3 cbFormat rawStp rawCb).invalid
        = 0x7fffffff8 := rfl
    have hsent : stpSentinelRaw 3 = 0xffffffff := rfl
    rw [hstp, hinv, hsent, key]
    exact and_congr_left' (by omega)

/-- Witness for C8 at format 2 with the sentinel raw value 0xFFFF. -/
theorem fcrNil_iff_sentinel_witness :
    ((2 : Nat) < 4 ∧ (0xffff : Nat) < 2 ^ stpWidthBits 2) ∧
      ((mkFileNodeChunkReference 2 0 0xffff 0).isFcrNil = true ↔
        ((0xffff : Nat) = stpSentinelRaw 2 ∧
          (mkFileNodeChunkReference 2 0 0xffff 0).cb = 0)) :=
  ⟨⟨by decide, by decide⟩,
    fcrNil_iff_sentinel 2 0 0xffff 0 (by decide) (by decide)⟩

/-! ## Claim C2: id-stream reads do not advance the cursor (code bug)

`ObjectSpaceObjectStreamOfIDs.read` never increments `head`, although
the class carries a `head` cursor, bounds-checks it, and has a `reset`
that zeroes it; `get_compact_ids` therefore returns the first CompactID
over and over instead of consecutive stream elements. -/

/-- C2 (failing input): on the stream [cidA, cidB] with the cursor at 0,
two consecutive reads both return cidA and leave the stream unchanged,
contradicting the claimed cursor advance. -/
theorem stream_read_does_not_advance :
    (get_compact_ids c2stream 2).1 = [some c2cidA, some c2cidA] ∧
    (get_compact_ids c2stream 2).2 = c2stream ∧
    c2cidA ≠ c2cidB := by decide

/-! ## Claim C4: missing Global Identification Table entries -/

/-- C4 (counterexample): rendering a CompactID whose (revision,
guidIndex) pair is absent from the table produces no string at all — in
particular not the placeholder `"<missing>"` — because the source
indexes the dictionaries directly (KeyError). -/
theorem missing_gidt_entry_renders_none :
    renderCompactID c4table c4cid = none ∧
    renderCompactID c4table c4cid ≠ some "<missing>" := by decide

/-- C4 (amended): whenever the Global Identification Table has no entry
for the CompactID's captured revision and guidIndex, rendering aborts
(KeyError, modelled as `none`); no placeholder is produced. -/
theorem missing_gidt_entry_aborts (table : GidTable) (cid : CompactID)
    (h : table cid.currentRevision cid.guidIndex = none) :
    renderCompactID table cid = none := by
  simp [renderCompactID, h]

/-- Witness for the amended C4 at the empty table. -/
theorem missing_gidt_entry_aborts_witness :
    c4table c4cid.currentRevision c4cid.guidIndex = none ∧
      renderCompactID c4table c4cid = none :=
  ⟨rfl, missing_gidt_entry_aborts c4table c4cid rfl⟩

/-! ## Claim C9: temporary seeks save and restore the reader position -/

/-- C9: the three routines that temporarily seek away — the
property-set decode of an ObjectDeclaration2RefCountFND, the
FileDataStoreObject decode of a FileDataStoreObjectReferenceFND, and
the child-list recursion for baseType == 2 — each record `tell()`
before seeking and restore it afterwards, so the position after
handling the node is the position at the end of the node's body,
whatever the temporarily-invoked decoder does to the position. -/
theorem reader_position_restored (r : Reader) (refStp refSize : Nat)
    (isPropertySet : Bool) (decodePS decodeFDSO recurse : Reader → Reader)
    (baseType : Nat) :
    (handleObjectDeclaration2RefCountFND r refStp isPropertySet decodePS).pos
        = r.pos ∧
    (handleFileDataStoreObjectReferenceFND r refSize refStp decodeFDSO).pos
        = r.pos + refSize + 16 ∧
    (handleBaseType2 r baseType recurse).pos = r.pos :=
  ⟨rfl, rfl, rfl⟩

/-! ## Claim C7: the current revision and the table inserts -/

/-- Dispatching any node that is not a RevisionManifestStart node leaves
`cur_revision` unchanged. -/
theorem processNodes_curRevision (es : List NodeEvent) : ∀ s : DocState,
    (∀ e ∈ es, isRevisionStart e = false) →
    (processNodes s es).curRevision = s.curRevision := by
  induction es with
  | nil => intro s _; rfl
  | cons e rest ih =>
    intro s h
    have hstep : (dispatchStep s e).curRevision = s.curRevision := by
      have he := h e (List.mem_cons_self e rest)
      cases e <;> simp_all [isRevisionStart, dispatchStep]
    have := ih (dispatchStep s e) (fun x hx => h x (List.mem_cons_of_mem e hx))
    simpa [processNodes, hstep] using this

/-- C7: `cur_revision` is written only by the three
RevisionManifestStart dispatch branches — Start4/Start6 set it to the
node's rid, Start7 to its base's rid — and persists across any run of
other nodes; each GlobalIdTableEntryFNDX inserts index → guid into the
table under the revision current when it is dispatched, leaving every
other table cell unchanged. -/
theorem revision_and_gidt_dispatch (s : DocState) :
    (∀ rid rd, (dispatchStep s (.revisionManifestStart4 rid rd)).curRevision
        = some rid) ∧
    (∀ rid rd, (dispatchStep s (.revisionManifestStart6 rid rd)).curRevision
        = some rid) ∧
    (∀ rid rd g, (dispatchStep s (.revisionManifestStart7 rid rd g)).curRevision
        = some rid) ∧
    (∀ e, isRevisionStart e = false →
      (dispatchStep s e).curRevision = s.curRevision) ∧
    (∀ es, (∀ e ∈ es, isRevisionStart e = false) →
      (processNodes s es).curRevision = s.curRevision) ∧
    (∀ index guid,
      (dispatchStep s (.globalIdTableEntry index guid)).gidt s.curRevision index
          = some guid ∧
      ∀ r i, ¬(r = s.curRevision ∧ i = index) →
        (dispatchStep s (.globalIdTableEntry index guid)).gidt r i
            = s.gidt r i) := by
  refine ⟨fun rid rd => rfl, fun rid rd => rfl, fun rid rd g => rfl, ?_, ?_, ?_⟩
  · intro e he
    cases e <;> simp_all [isRevisionStart, dispatchStep]
  · intro es h
    exact processNodes_curRevision es s h
  · intro index guid
    constructor
    · simp [dispatchStep]
    · intro r i hne
      simp [dispatchStep, if_neg hne]

/-- Witness for C7: a Start4 node sets the revision; a run without
revision-start nodes preserves it. -/
theorem revision_and_gidt_dispatch_witness :
    (dispatchStep c7state (.revisionManifestStart4 c7rid c7rid)).curRevision
        = some c7rid ∧
    (processNodes c7state c7others).curRevision = c7state.curRevision :=
  ⟨(revision_and_gidt_dispatch c7state).1 c7rid c7rid,
    (revision_and_gidt_dispatch c7state).2.2.2.2.1 c7others (by decide)⟩

/-! ## Claim C1: the fragment node loop and the fragment trailer -/

/-- Shifting the start of the iterated decode by one node. -/
theorem posAt_shift (decode : Nat → FileNodeHeader × Nat) (pos : Nat) :
    ∀ k, posAt decode (decode pos).2 k = posAt decode pos (k + 1) := by
  intro k
  induction k with
  | zero => rfl
  | succ k ih => simp [posAt, ih]

/-- Soundness and completeness of the node loop: every decoded node was
decoded at a position with `pos + 24 < sectionEnd` after only
non-terminator nodes, the final position is the iterated decode
position, and the loop stopped either because the cushion test failed
or because the last node was a terminator (id 0 or 255). -/
theorem fragmentLoop_sound (decode : Nat → FileNodeHeader × Nat)
    (sectionEnd : Nat) : ∀ fuel pos ns p,
    fragmentLoop decode sectionEnd fuel pos = some (ns, p) →
    (∀ k, (hk : k < ns.length) →
        posAt decode pos k + 24 < sectionEnd ∧
        ns.get ⟨k, hk⟩ = (decode (posAt decode pos k)).1) ∧
    (∀ k, (hk : k < ns.length) → ∀ j, (hj : j < k) →
        (ns.get ⟨j, Nat.lt_trans hj hk⟩).file_node_id ≠ 0 ∧
        (ns.get ⟨j, Nat.lt_trans hj hk⟩).file_node_id ≠ 255) ∧
    p = posAt decode pos ns.length ∧
    (¬ (posAt decode pos ns.length + 24 < sectionEnd) ∨
      ∃ hne : ns ≠ [],
        (ns.getLast hne).file_node_id = 0 ∨
        (ns.getLast hne).file_node_id = 255) := by
  intro fuel
  induction fuel with
  | zero => intro pos ns p h; simp [fragmentLoop] at h
  | succ fuel ih =>
    intro pos ns p h
    rw [fragmentLoop] at h
    by_cases hc : pos + 24 < sectionEnd
    · rw [if_pos hc] at h
      rcases hdp : decode pos with ⟨node, p1⟩
      rw [hdp] at h
      dsimp only at h
      have h1 : (decode pos).1 = node := by rw [hdp]
      have h2 : (decode pos).2 = p1 := by rw [hdp]
      by_cases hterm : (node.file_node_id == 255 || node.file_node_id == 0) = true
      · rw [if_pos hterm] at h
        injection h with h'
        injection h' with hns hp
        subst hns
        subst hp
        refine ⟨?_, ?_, ?_, ?_⟩
        · intro k hk
          simp at hk
          have hk0 : k = 0 := by omega
          subst hk0
          exact ⟨hc, by simp [posAt, h1]⟩
        · intro k hk j hj
          simp at hk
          omega
        · simp [posAt, h2]
        · right
          refine ⟨by simp, ?_⟩
          have hb : node.file_node_id = 255 ∨ node.file_node_id = 0 := by
            simpa using hterm
          rcases hb with hb | hb
          · exact Or.inr (by simpa using hb)
          · exact Or.inl (by simpa using hb)
      · rw [if_neg hterm] at h
        cases hrec : fragmentLoop decode sectionEnd fuel p1 with
        | none => rw [hrec] at h; simp at h
        | some r =>
          rw [hrec] at h
          obtain ⟨ns', p2⟩ := r
          dsimp only at h
          injection h with h'
          injection h' with hns hp
          subst hns
          subst hp
          obtain ⟨ihA, ihB, ihP, ihStop⟩ := ih p1 ns' p2 hrec
          have hshift : ∀ k, posAt decode p1 k = posAt decode pos (k + 1) := by
            intro k
            rw [← h2]
            exact posAt_shift decode pos k
          have hnot0 : node.file_node_id ≠ 0 := fun hz => hterm (by simp [hz])
          have hnot255 : node.file_node_id ≠ 255 := fun hz => hterm (by simp [hz])
          refine ⟨?_, ?_, ?_, ?_⟩
          · intro k hk
            cases k with
            | zero => exact ⟨hc, by simp [posAt, h1]⟩
            | succ k =>
              have hk' : k < ns'.length := by
                simp at hk
                omega
              have hA := ihA k hk'
              rw [hshift k] at hA
              exact ⟨hA.1, hA.2⟩
          · intro k hk j hj
            cases j with
            | zero => exact ⟨hnot0, hnot255⟩
            | succ j =>
              cases k with
              | zero => omega
              | succ k =>
                have hk' : k < ns'.length := by
                  simp at hk
                  omega
                have hj' : j < k := Nat.lt_of_succ_lt_succ hj
                exact ⟨(ihB k hk' j hj').1, (ihB k hk' j hj').2⟩
          · show p2 = posAt decode pos (ns'.length + 1)
            rw [← hshift ns'.length]
            exact ihP
          · rcases ihStop with hstop | ⟨hne, hlast⟩
            · left
              show ¬ (posAt decode pos (ns'.length + 1) + 24 < sectionEnd)
              rw [← hshift ns'.length]
              exact hstop
            · right
              refine ⟨by simp, ?_⟩
              rwa [List.getLast_cons hne]
    · rw [if_neg hc] at h
      injection h with h'
      injection h' with hns hp
      subst hns
      subst hp
      refine ⟨?_, ?_, rfl, ?_⟩
      · intro k hk
        simp at hk
      · intro k hk j hj
        simp at hk
      · left
        simpa [posAt] using hc

/-- C1 (amended): the walker decodes a further FileNode exactly when
`tell() + 24 < section_end` (strictly less — at equality it stops, so
the claim's `tell() + 24 > section_end` bound is off by one) and no
previously decoded node of the fragment had id 0x00 or 0xFF; after the
node loop it seeks to `section_end - 20` and reads the 12-byte
nextFragment reference (FileChunkReference64x32) followed by the 8-byte
footer. -/
theorem fragment_walk_spec (decode : Nat → FileNodeHeader × Nat)
    (sectionEnd : Nat) :
    (∀ fuel pos ns p,
      fragmentLoop decode sectionEnd fuel pos = some (ns, p) →
      (∀ k, (hk : k < ns.length) →
          posAt decode pos k + 24 < sectionEnd ∧
          ns.get ⟨k, hk⟩ = (decode (posAt decode pos k)).1) ∧
      (∀ k, (hk : k < ns.length) → ∀ j, (hj : j < k) →
          (ns.get ⟨j, Nat.lt_trans hj hk⟩).file_node_id ≠ 0 ∧
          (ns.get ⟨j, Nat.lt_trans hj hk⟩).file_node_id ≠ 255) ∧
      p = posAt decode pos ns.length ∧
      (¬ (posAt decode pos ns.length + 24 < sectionEnd) ∨
        ∃ hne : ns ≠ [],
          (ns.getLast hne).file_node_id = 0 ∨
          (ns.getLast hne).file_node_id = 255)) ∧
    (∀ b stp cb fuel fr,
      parseFileNodeListFragment decode b stp cb fuel = some fr →
      fr.nextFragment = decodeFileChunkReference64x32 b (stp + cb - 20) ∧
      fr.footer = readU64 b (stp + cb - 8)) := by
  constructor
  · exact fragmentLoop_sound decode sectionEnd
  · intro b stp cb fuel fr h
    rw [parseFileNodeListFragment] at h
    cases hloop : fragmentLoop decode (stp + cb) fuel (stp + 16) with
    | none => rw [hloop] at h; simp at h
    | some r =>
      rw [hloop] at h
      obtain ⟨ns, p⟩ := r
      simp only at h
      injection h with h'
      subst h'
      exact ⟨rfl, rfl⟩

/-- Witness for the amended C1: one node decoded at 16, loop stops at 20
because 20 + 24 < 44 fails; final position is the iterated decode. -/
theorem fragment_walk_spec_witness :
    fragmentLoop c1decode 44 3 16 = some ([(c1decode 16).1], 20) ∧
    (20 : Nat) = posAt c1decode 16 [(c1decode 16).1].length :=
  ⟨by rfl,
    ((fragment_walk_spec c1decode 44).1 3 16 [(c1decode 16).1] 20
      (by rfl)).2.2.1⟩

/-- C1 (counterexample to the claim as stated): with section_end = 40
and the loop starting at position 16, the claimed condition
`tell() + 24 > section_end` is false (40 > 40 fails), no node has been
decoded yet, and still the walker decodes no FileNode, because the
source tests `tell() + 24 < end`. -/
theorem fragment_walk_boundary_counterexample :
    fragmentLoop c1decode 40 10 16 = some ([], 16) ∧ ¬ (16 + 24 > 40) :=
  ⟨rfl, by decide⟩

/-! ## Claim C5: unknown FileNode ids -/

/-- Association-list lookup misses every key that is not in the key
column. -/
theorem lookup_none_of_not_mem_keys {β : Type} (l : List (Nat × β)) (k : Nat)
    (h : k ∉ l.map Prod.fst) : l.lookup k = none := by
  induction l with
  | nil => rfl
  | cons p rest ih =>
    simp only [List.map_cons, List.mem_cons] at h
    push_neg at h
    rw [List.lookup]
    have hne : (k == p.1) = false := by
      simpa [beq_eq_false_iff_ne] using h.1
    rw [hne]
    exact ih h.2

/-- C5 (amended): a FileNode whose 10-bit id is not recognized is
recorded with type name `UnknownType_0x{id:03X}`, but the reader is left
immediately after the 4-byte header — the dispatcher's else-branch reads
nothing and the `size` field is not used to skip the body — and (when
the header's baseType is not 2, which would crash on the missing `data`
attribute) decoding of the remaining nodes of the fragment continues
from there without aborting. -/
theorem unknown_node_spec (b : Nat → Nat) (pos : Nat)
    (hunk : (mkFileNodeHeader (readU32 b pos)).file_node_id ∉ recognizedFileNodeIds)
    (hbt : (mkFileNodeHeader (readU32 b pos)).baseType ≠ 2) :
    decodeFileNodeUnknown b pos
        = .ok (mkFileNodeHeader (readU32 b pos), pos + 4) ∧
    (mkFileNodeHeader (readU32 b pos)).file_node_type
        = "UnknownType_0x"
            ++ hex3 ((mkFileNodeHeader (readU32 b pos)).file_node_id) ∧
    (mkFileNodeHeader (readU32 b pos)).file_node_id ≠ 255 ∧
    (∀ decode sectionEnd fuel ns p,
      (mkFileNodeHeader (readU32 b pos)).file_node_id ≠ 0 →
      decode pos = (mkFileNodeHeader (readU32 b pos), pos + 4) →
      pos + 24 < sectionEnd →
      fragmentLoop decode sectionEnd fuel (pos + 4) = some (ns, p) →
      fragmentLoop decode sectionEnd (fuel + 1) pos
        = some (mkFileNodeHeader (readU32 b pos) :: ns, p)) := by
  have hid255 : (mkFileNodeHeader (readU32 b pos)).file_node_id ≠ 255 := by
    intro h255
    apply hunk
    rw [h255]
    decide
  refine ⟨?_, ?_, hid255, ?_⟩
  · have hb2 : ((mkFileNodeHeader (readU32 b pos)).baseType == 2) = false := by
      simpa [beq_eq_false_iff_ne] using hbt
    simp only [decodeFileNodeUnknown, hb2, Bool.false_eq_true, if_false]
  · have hunkKeys : ((readU32 b pos) &&& 0x3ff) ∉ fileNodeIDNames.map Prod.fst :=
      hunk
    show fileNodeTypeName ((readU32 b pos) &&& 0x3ff) = _
    rw [fileNodeTypeName,
      lookup_none_of_not_mem_keys fileNodeIDNames _ hunkKeys]
    rfl
  · intro decode sectionEnd fuel ns p hid0 hdec hcush hrest
    rw [fragmentLoop, if_pos hcush, hdec]
    dsimp only
    have hb : ((mkFileNodeHeader (readU32 b pos)).file_node_id == 255
        || (mkFileNodeHeader (readU32 b pos)).file_node_id == 0) = false := by
      simp [hid255, hid0]
    rw [hb]
    simp only [Bool.false_eq_true, if_false]
    rw [hrest]

/-- Witness for the amended C5 at a concrete unknown-id header
(id 0x003, size 12, baseType 0). -/
theorem unknown_node_spec_witness :
    decodeFileNodeUnknown c5bytes 0
        = .ok (mkFileNodeHeader (readU32 c5bytes 0), 0 + 4) ∧
    (mkFileNodeHeader (readU32 c5bytes 0)).file_node_type
        = "UnknownType_0x"
            ++ hex3 ((mkFileNodeHeader (readU32 c5bytes 0)).file_node_id) :=
  ⟨(unknown_node_spec c5bytes 0 (by decide) (by decide)).1,
    (unknown_node_spec c5bytes 0 (by decide) (by decide)).2.1⟩

/-- C5 (counterexample to the claim as stated): for the unknown node
with header u32 0x3003 (id 0x003, size 12) the reader ends at offset 4,
not at 0 + 12 as claimed from the header's size field. -/
theorem unknown_node_size_counterexample :
    decodeFileNodeUnknown c5bytes 0 = .ok (mkFileNodeHeader 0x3003, 4) ∧
    (mkFileNodeHeader 0x3003).size = 12 ∧
    (mkFileNodeHeader 0x3003).file_node_type = "UnknownType_0x003" ∧
    (4 : Nat) ≠ 0 + 12 :=
  ⟨rfl, by decide⟩

/-! ## Claim C6: listId agreement across fragments is never checked -/

/-- A fragment whose cushion test fails immediately decodes no nodes. -/
theorem fragmentLoop_stop (decode : Nat → FileNodeHeader × Nat)
    (sectionEnd fuel pos : Nat) (h : ¬ (pos + 24 < sectionEnd)) :
    fragmentLoop decode sectionEnd (Nat.succ fuel) pos = some ([], pos) := by
  rw [fragmentLoop, if_neg h]

/-- Evaluation of `parseFileNodeListFragment` on a fragment with no
nodes. -/
theorem parseFragment_noNodes (decode : Nat → FileNodeHeader × Nat)
    (b : Nat → Nat) (stp cb fuel : Nat)
    (h : ¬ (stp + 16 + 24 < stp + cb)) :
    parseFileNodeListFragment decode b stp cb (Nat.succ fuel)
      = some { uintMagic := readU64 b stp
               fileNodeListID := readU32 b (stp + 8)
               nFragmentSequence := readU32 b (stp + 12)
               fileNodes := []
               nextFragment := decodeFileChunkReference64x32 b (stp + cb - 20)
               footer := readU64 b (stp + cb - 8) } := by
  rw [parseFileNodeListFragment, fragmentLoop_stop decode _ fuel _ h]

/-- Chain step of `FileNodeList.__init__`: a parsed fragment whose
nextFragment is not nil is followed by the fragments parsed from that
reference. -/
theorem parseList_step_cont (decode : Nat → FileNodeHeader × Nat)
    (b : Nat → Nat) (chainFuel stp cb fuel nstp ncb : Nat)
    (fr : FileNodeListFragmentM) (rest : List FileNodeListFragmentM)
    (hfr : parseFileNodeListFragment decode b stp cb fuel = some fr)
    (hnil : fr.nextFragment.isFcrNil = false)
    (hstp : fr.nextFragment.stp = nstp) (hcb : fr.nextFragment.cb = ncb)
    (hrest : parseFileNodeListM decode b chainFuel nstp ncb fuel = some rest) :
    parseFileNodeListM decode b (Nat.succ chainFuel) stp cb fuel
      = some (fr :: rest) := by
  rw [parseFileNodeListM, hfr]
  show (if fr.nextFragment.isFcrNil = true then some [fr]
    else
      match parseFileNodeListM decode b chainFuel fr.nextFragment.stp
          fr.nextFragment.cb fuel with
      | some r => some (fr :: r)
      | none => none) = some (fr :: rest)
  rw [hnil, hstp, hcb, hrest]
  rfl

/-- Chain end of `FileNodeList.__init__`: a parsed fragment whose
nextFragment is nil is the last fragment. -/
theorem parseList_step_last (decode : Nat → FileNodeHeader × Nat)
    (b : Nat → Nat) (chainFuel stp cb fuel : Nat)
    (fr : FileNodeListFragmentM)
    (hfr : parseFileNodeListFragment decode b stp cb fuel = some fr)
    (hnil : fr.nextFragment.isFcrNil = true) :
    parseFileNodeListM decode b (Nat.succ chainFuel) stp cb fuel
      = some [fr] := by
  rw [parseFileNodeListM, hfr]
  show (if fr.nextFragment.isFcrNil = true then some [fr]
    else
      match parseFileNodeListM decode b chainFuel fr.nextFragment.stp
          fr.nextFragment.cb fuel with
      | some r => some (fr :: r)
      | none => none) = some [fr]
  rw [hnil]
  rfl

/-- C6 (amended): the fragment walker performs no listId comparison.  A
two-fragment FileNodeList whose fragments carry arbitrary — in
particular different — listIds parses successfully, each fragment
retaining the listId read from its own header; no ListIdMismatch error
exists in the code. -/
theorem filelist_listids_unchecked (a0 a1 a2 a3 d0 d1 d2 d3 : Nat)
    (ha0 : a0 < 256) (ha1 : a1 < 256) (ha2 : a2 < 256) (ha3 : a3 < 256)
    (hd0 : d0 < 256) (hd1 : d1 < 256) (hd2 : d2 < 256) (hd3 : d3 < 256) :
    (parseFileNodeListM c1decode (c6bytes a0 a1 a2 a3 d0 d1 d2 d3) 2 0 40 1).map
        (List.map FileNodeListFragmentM.fileNodeListID)
      = some [a0 + 256 * a1 + 65536 * a2 + 16777216 * a3,
              d0 + 256 * d1 + 65536 * d2 + 16777216 * d3] := by
  have h100 : readU64 (c6bytes a0 a1 a2 a3 d0 d1 d2 d3) 20 = 100 := by
    simp [readU64, readLE, byteAt, c6bytes]
  have h40 : readU32 (c6bytes a0 a1 a2 a3 d0 d1 d2 d3) 28 = 40 := by
    simp [readU32, readLE, byteAt, c6bytes]
  have hnilA : (decodeFileChunkReference64x32
      (c6bytes a0 a1 a2 a3 d0 d1 d2 d3) 20).isFcrNil = false := by
    rw [decodeFileChunkReference64x32]
    show FileNodeChunkReference.isFcrNil
      { stp := readU64 (c6bytes a0 a1 a2 a3 d0 d1 d2 d3) 20
        cb := readU32 (c6bytes a0 a1 a2 a3 d0 d1 d2 d3) 28
        invalid := 0xffffffffffffffff } = false
    rw [h100, h40]
    decide
  have hbig : readU64 (c6bytes a0 a1 a2 a3 d0 d1 d2 d3) 120
      = 0xffffffffffffffff := by
    simp [readU64, readLE, byteAt, c6bytes]
  have hzero : readU32 (c6bytes a0 a1 a2 a3 d0 d1 d2 d3) 128 = 0 := by
    simp [readU32, readLE, byteAt, c6bytes]
  have hnilB : (decodeFileChunkReference64x32
      (c6bytes a0 a1 a2 a3 d0 d1 d2 d3) 120).isFcrNil = true := by
    rw [decodeFileChunkReference64x32]
    show FileNodeChunkReference.isFcrNil
      { stp := readU64 (c6bytes a0 a1 a2 a3 d0 d1 d2 d3) 120
        cb := readU32 (c6bytes a0 a1 a2 a3 d0 d1 d2 d3) 128
        invalid := 0xffffffffffffffff } = true
    rw [hbig, hzero]
    decide
  have hidA : readU32 (c6bytes a0 a1 a2 a3 d0 d1 d2 d3) 8
      = a0 + 256 * a1 + 65536 * a2 + 16777216 * a3 := by
    simp [readU32, readLE, byteAt, c6bytes]
    omega
  have hidD : readU32 (c6bytes a0 a1 a2 a3 d0 d1 d2 d3) 108
      = d0 + 256 * d1 + 65536 * d2 + 16777216 * d3 := by
    simp [readU32, readLE, byteAt, c6bytes]
    omega
  have hfragA : parseFileNodeListFragment c1decode
      (c6bytes a0 a1 a2 a3 d0 d1 d2 d3) 0 40 1
      = some { uintMagic := readU64 (c6bytes a0 a1 a2 a3 d0 d1 d2 d3) 0
               fileNodeListID := readU32 (c6bytes a0 a1 a2 a3 d0 d1 d2 d3) 8
               nFragmentSequence := readU32 (c6bytes a0 a1 a2 a3 d0 d1 d2 d3) 12
               fileNodes := []
               nextFragment := decodeFileChunkReference64x32
                 (c6bytes a0 a1 a2 a3 d0 d1 d2 d3) 20
               footer := readU64 (c6bytes a0 a1 a2 a3 d0 d1 d2 d3) 32 } := by
    show parseFileNodeListFragment c1decode (c6bytes a0 a1 a2 a3 d0 d1 d2 d3)
      0 40 (Nat.succ 0) = _
    rw [parseFragment_noNodes c1decode (c6bytes a0 a1 a2 a3 d0 d1 d2 d3) 0 40 0
      (by norm_num)]
  have hfragB : parseFileNodeListFragment c1decode
      (c6bytes a0 a1 a2 a3 d0 d1 d2 d3) 100 40 1
      = some { uintMagic := readU64 (c6bytes a0 a1 a2 a3 d0 d1 d2 d3) 100
               fileNodeListID := readU32 (c6bytes a0 a1 a2 a3 d0 d1 d2 d3) 108
               nFragmentSequence := readU32 (c6bytes a0 a1 a2 a3 d0 d1 d2 d3) 112
               fileNodes := []
               nextFragment := decodeFileChunkReference64x32
                 (c6bytes a0 a1 a2 a3 d0 d1 d2 d3) 120
               footer := readU64 (c6bytes a0 a1 a2 a3 d0 d1 d2 d3) 132 } := by
    show parseFileNodeListFragment c1decode (c6bytes a0 a1 a2 a3 d0 d1 d2 d3)
      100 40 (Nat.succ 0) = _
    rw [parseFragment_noNodes c1decode (c6bytes a0 a1 a2 a3 d0 d1 d2 d3)
      100 40 0 (by norm_num)]
  have hchainB : parseFileNodeListM c1decode (c6bytes a0 a1 a2 a3 d0 d1 d2 d3)
      1 100 40 1
      = some [{ uintMagic := readU64 (c6bytes a0 a1 a2 a3 d0 d1 d2 d3) 100
                fileNodeListID := readU32 (c6bytes a0 a1 a2 a3 d0 d1 d2 d3) 108
                nFragmentSequence :=
                  readU32 (c6bytes a0 a1 a2 a3 d0 d1 d2 d3) 112
                fileNodes := []
                nextFragment := decodeFileChunkReference64x32
                  (c6bytes a0 a1 a2 a3 d0 d1 d2 d3) 120
                footer := readU64 (c6bytes a0 a1 a2 a3 d0 d1 d2 d3) 132 }] := by
    show parseFileNodeListM c1decode (c6bytes a0 a1 a2 a3 d0 d1 d2 d3)
      (Nat.succ 0) 100 40 1 = _
    exact parseList_step_last c1decode (c6bytes a0 a1 a2 a3 d0 d1 d2 d3)
      0 100 40 1 _ hfragB hnilB
  have hmain : parseFileNodeListM c1decode (c6bytes a0 a1 a2 a3 d0 d1 d2 d3)
      (Nat.succ 1) 0 40 1
      = some [{ uintMagic := readU64 (c6bytes a0 a1 a2 a3 d0 d1 d2 d3) 0
                fileNodeListID := readU32 (c6bytes a0 a1 a2 a3 d0 d1 d2 d3) 8
                nFragmentSequence := readU32 (c6bytes a0 a1 a2 a3 d0 d1 d2 d3) 12
                fileNodes := []
                nextFragment := decodeFileChunkReference64x32
                  (c6bytes a0 a1 a2 a3 d0 d1 d2 d3) 20
                footer := readU64 (c6bytes a0 a1 a2 a3 d0 d1 d2 d3) 32 },
              { uintMagic := readU64 (c6bytes a0 a1 a2 a3 d0 d1 d2 d3) 100
                fileNodeListID := readU32 (c6bytes a0 a1 a2 a3 d0 d1 d2 d3) 108
                nFragmentSequence :=
                  readU32 (c6bytes a0 a1 a2 a3 d0 d1 d2 d3) 112
                fileNodes := []
                nextFragment := decodeFileChunkReference64x32
                  (c6bytes a0 a1 a2 a3 d0 d1 d2 d3) 120
                footer := readU64 (c6bytes a0 a1 a2 a3 d0 d1 d2 d3) 132 }] :=
    parseList_step_cont c1decode (c6bytes a0 a1 a2 a3 d0 d1 d2 d3)
      1 0 40 1 100 40 _ _ hfragA hnilA h100 h40 hchainB
  show (parseFileNodeListM c1decode (c6bytes a0 a1 a2 a3 d0 d1 d2 d3)
      (Nat.succ 1) 0 40 1).map
        (List.map FileNodeListFragmentM.fileNodeListID) = _
  rw [hmain]
  show some [readU32 (c6bytes a0 a1 a2 a3 d0 d1 d2 d3) 8,
             readU32 (c6bytes a0 a1 a2 a3 d0 d1 d2 d3) 108] = _
  rw [hidA, hidD]

/-- C6 (counterexample to the claim as stated): a FileNodeList whose two
fragments carry listIds 1 and 2 parses successfully — no ListIdMismatch
failure occurs, so not all fragments of a successfully parsed list share
one listId. -/
theorem filelist_listid_mismatch_counterexample :
    (parseFileNodeListM c1decode (c6bytes 1 0 0 0 2 0 0 0) 2 0 40 1).map
        (List.map FileNodeListFragmentM.fileNodeListID) = some [1, 2] ∧
    (1 : Nat) ≠ 2 := by decide

/-- Witness for the amended C6 at listIds 5 and 6. -/
theorem filelist_listids_unchecked_witness :
    (parseFileNodeListM c1decode (c6bytes 5 0 0 0 6 0 0 0) 2 0 40 1).map
        (List.map FileNodeListFragmentM.fileNodeListID)
      = some [5 + 256 * 0 + 65536 * 0 + 16777216 * 0,
              6 + 256 * 0 + 65536 * 0 + 16777216 * 0] :=
  filelist_listids_unchecked 5 0 0 0 6 0 0 0 (by decide) (by decide) (by decide)
    (by decide) (by decide) (by decide) (by decide) (by decide)

/-! ## Claim C3: the PropertySet decoder -/

/-- The PropertyID loop reads exactly its count. -/
theorem readPrids_length (b : Nat → Nat) :
    ∀ n pos, (readPrids b n pos).length = n := by
  intro n
  induction n with
  | zero => intro pos; rfl
  | succ n ih =>
    intro pos
    simp [readPrids, ih]

/-- The value loop decodes one value per PropertyID. -/
theorem decodeVals_length (b : Nat → Nat)
    (OIDs OSIDs ContextIDs : ObjectSpaceObjectStreamOfIDs)
    (decPS : Nat → Except PropError (PropertySetM × Nat)) :
    ∀ prids pos vs p,
      decodeVals b OIDs OSIDs ContextIDs decPS prids pos = .ok (vs, p) →
      vs.length = prids.length := by
  intro prids
  induction prids with
  | nil =>
    intro pos vs p h
    rw [decodeVals] at h
    injection h with h'
    injection h' with hvs hp
    rw [← hvs]
    rfl
  | cons prid rest ih =>
    intro pos vs p h
    rw [decodeVals] at h
    cases h1 : decodeOneVal b OIDs OSIDs ContextIDs decPS prid pos with
    | error e => rw [h1] at h; exact absurd h (by simp)
    | ok r1 =>
      rw [h1] at h
      obtain ⟨v, p1⟩ := r1
      dsimp only at h
      cases h2 : decodeVals b OIDs OSIDs ContextIDs decPS rest p1 with
      | error e => rw [h2] at h; exact absurd h (by simp)
      | ok r2 =>
        rw [h2] at h
        obtain ⟨vs2, p2⟩ := r2
        dsimp only at h
        injection h with h'
        injection h' with hvs hp
        rw [← hvs]
        simp [ih p1 vs2 p2 h2]

/-- C3: property-set decoding reads a u16 cProperties, then cProperties
PropertyIDs, then exactly cProperties values in order, each value
consuming bytes according to its PropertyID's 5-bit type (0x1, 0x2: 0
bytes; 0x3: 1; 0x4: 2; 0x5: 4; 0x6: 8; 0x7: 4 + cb; 0x9/0xB/0xD: a
4-byte count plus count stream reads; 0x8/0xA/0xC: one stream read and
no bytes; 0x11: a nested property set decoded recursively sharing the
same three streams); type 0x10 raises NotImplementedError and any type
outside the enumerated set raises ValueError. -/
theorem property_set_decode_spec (b : Nat → Nat)
    (OIDs OSIDs ContextIDs : ObjectSpaceObjectStreamOfIDs)
    (fuel pos : Nat) (ps : PropertySetM) (p : Nat)
    (h : decodePropertySet b OIDs OSIDs ContextIDs (fuel + 1) pos
      = .ok (ps, p)) :
    ps.cProperties = readU16 b pos ∧
    ps.rgPrids = readPrids b (readU16 b pos) (pos + 2) ∧
    ps.rgPrids.length = ps.cProperties ∧
    ps.rgData.length = ps.cProperties ∧
    (∀ prid q, prid.ptype = 0x1 →
      decodeOneVal b OIDs OSIDs ContextIDs
        (decodePropertySet b OIDs OSIDs ContextIDs fuel) prid q
        = .ok (.noneVal, q)) ∧
    (∀ prid q, prid.ptype = 0x2 →
      decodeOneVal b OIDs OSIDs ContextIDs
        (decodePropertySet b OIDs OSIDs ContextIDs fuel) prid q
        = .ok (.boolVal prid.boolValue, q)) ∧
    (∀ prid q, prid.ptype = 0x3 →
      decodeOneVal b OIDs OSIDs ContextIDs
        (decodePropertySet b OIDs OSIDs ContextIDs fuel) prid q
        = .ok (.bytesVal (readBytes b q 1), q + 1)) ∧
    (∀ prid q, prid.ptype = 0x4 →
      decodeOneVal b OIDs OSIDs ContextIDs
        (decodePropertySet b OIDs OSIDs ContextIDs fuel) prid q
        = .ok (.bytesVal (readBytes b q 2), q + 2)) ∧
    (∀ prid q, prid.ptype = 0x5 →
      decodeOneVal b OIDs OSIDs ContextIDs
        (decodePropertySet b OIDs OSIDs ContextIDs fuel) prid q
        = .ok (.bytesVal (readBytes b q 4), q + 4)) ∧
    (∀ prid q, prid.ptype = 0x6 →
      decodeOneVal b OIDs OSIDs ContextIDs
        (decodePropertySet b OIDs OSIDs ContextIDs fuel) prid q
        = .ok (.bytesVal (readBytes b q 8), q + 8)) ∧
    (∀ prid q, prid.ptype = 0x7 →
      decodeOneVal b OIDs OSIDs ContextIDs
        (decodePropertySet b OIDs OSIDs ContextIDs fuel) prid q
        = .ok (.prtData (readU32 b q) (readBytes b (q + 4) (readU32 b q)),
            q + 4 + readU32 b q)) ∧
    (∀ prid q, prid.ptype = 0x8 →
      decodeOneVal b OIDs OSIDs ContextIDs
        (decodePropertySet b OIDs OSIDs ContextIDs fuel) prid q
        = .ok (.cidsVal (get_compact_ids OIDs 1).1, q)) ∧
    (∀ prid q, prid.ptype = 0x9 →
      decodeOneVal b OIDs OSIDs ContextIDs
        (decodePropertySet b OIDs OSIDs ContextIDs fuel) prid q
        = .ok (.cidsVal (get_compact_ids OIDs (readU32 b q)).1, q + 4)) ∧
    (∀ prid q, prid.ptype = 0xA →
      decodeOneVal b OIDs OSIDs ContextIDs
        (decodePropertySet b OIDs OSIDs ContextIDs fuel) prid q
        = .ok (.cidsVal (get_compact_ids OSIDs 1).1, q)) ∧
    (∀ prid q, prid.ptype = 0xB →
      decodeOneVal b OIDs OSIDs ContextIDs
        (decodePropertySet b OIDs OSIDs ContextIDs fuel) prid q
        = .ok (.cidsVal (get_compact_ids OSIDs (readU32 b q)).1, q + 4)) ∧
    (∀ prid q, prid.ptype = 0xC →
      decodeOneVal b OIDs OSIDs ContextIDs
        (decodePropertySet b OIDs OSIDs ContextIDs fuel) prid q
        = .ok (.cidsVal (get_compact_ids ContextIDs 1).1, q)) ∧
    (∀ prid q, prid.ptype = 0xD →
      decodeOneVal b OIDs OSIDs ContextIDs
        (decodePropertySet b OIDs OSIDs ContextIDs fuel) prid q
        = .ok (.cidsVal (get_compact_ids ContextIDs (readU32 b q)).1,
            q + 4)) ∧
    (∀ prid q, prid.ptype = 0x10 →
      decodeOneVal b OIDs OSIDs ContextIDs
        (decodePropertySet b OIDs OSIDs ContextIDs fuel) prid q
        = .error .notImplemented) ∧
    (∀ prid q ps2 p2, prid.ptype = 0x11 →
      decodePropertySet b OIDs OSIDs ContextIDs fuel q = .ok (ps2, p2) →
      decodeOneVal b OIDs OSIDs ContextIDs
        (decodePropertySet b OIDs OSIDs ContextIDs fuel) prid q
        = .ok (.childSet ps2.cProperties ps2.rgPrids ps2.rgData, p2)) ∧
    (∀ prid q, prid.ptype ∉
        ([0x1, 0x2, 0x3, 0x4, 0x5, 0x6, 0x7, 0x8, 0x9, 0xA, 0xB, 0xC, 0xD,
          0x10, 0x11] : List Nat) →
      decodeOneVal b OIDs OSIDs ContextIDs
        (decodePropertySet b OIDs OSIDs ContextIDs fuel) prid q
        = .error .invalidType) := by
  have hstruct : ps.cProperties = readU16 b pos ∧
      ps.rgPrids = readPrids b (readU16 b pos) (pos + 2) ∧
      ps.rgData.length = (readPrids b (readU16 b pos) (pos + 2)).length := by
    rw [decodePropertySet] at h
    cases hv : decodeVals b OIDs OSIDs ContextIDs
        (decodePropertySet b OIDs OSIDs ContextIDs fuel)
        (readPrids b (readU16 b pos) (pos + 2))
        (pos + 2 + 4 * readU16 b pos) with
    | error e => rw [hv] at h; exact absurd h (by simp)
    | ok r =>
      rw [hv] at h
      obtain ⟨vs, p2⟩ := r
      dsimp only at h
      injection h with h'
      injection h' with hps hp
      rw [← hps]
      exact ⟨rfl, rfl,
        decodeVals_length b OIDs OSIDs ContextIDs _ _ _ vs p2 hv⟩
  obtain ⟨hc, hprids, hdata⟩ := hstruct
  refine ⟨hc, hprids, ?_, ?_, ?_, ?_, ?_, ?_, ?_, ?_, ?_, ?_, ?_, ?_, ?_, ?_,
    ?_, ?_, ?_, ?_⟩
  · rw [hprids, hc, readPrids_length]
  · rw [hdata, hc, readPrids_length]
  · intro prid q ht
    simp [decodeOneVal, ht]
  · intro prid q ht
    simp [decodeOneVal, ht]
  · intro prid q ht
    simp [decodeOneVal, ht]
  · intro prid q ht
    simp [decodeOneVal, ht]
  · intro prid q ht
    simp [decodeOneVal, ht]
  · intro prid q ht
    simp [decodeOneVal, ht]
  · intro prid q ht
    simp [decodeOneVal, ht]
  · intro prid q ht
    simp [decodeOneVal, ht]
  · intro prid q ht
    simp [decodeOneVal, ht]
  · intro prid q ht
    simp [decodeOneVal, ht]
  · intro prid q ht
    simp [decodeOneVal, ht]
  · intro prid q ht
    simp [decodeOneVal, ht]
  · intro prid q ht
    simp [decodeOneVal, ht]
  · intro prid q ht
    simp [decodeOneVal, ht]
  · intro prid q ps2 p2 ht hrec
    simp [decodeOneVal, ht, hrec]
  · intro prid q ht
    simp only [List.mem_cons, List.not_mem_nil, or_false] at ht
    push_neg at ht
    obtain ⟨n1, n2, n3, n4, n5, n6, n7, n8, n9, nA, nB, nC, nD, n10, n11⟩ := ht
    simp [decodeOneVal, n1, n2, n3, n4, n5, n6, n7, n8, n9, nA, nB, nC, nD,
      n10, n11]

/-- Witness for C3 on a one-property set of type 0x3 (a single byte). -/
theorem property_set_decode_spec_witness :
    decodePropertySet c3bytes c3stream c3stream c3stream (0 + 1) 0
      = .ok ({ cProperties := 1, rgPrids := [mkPropertyID 0x0C000000],
               rgData := [.bytesVal [0xAB]] }, 7) ∧
    (({ cProperties := 1, rgPrids := [mkPropertyID 0x0C000000],
        rgData := [.bytesVal [0xAB]] } : PropertySetM)).rgData.length
      = (({ cProperties := 1, rgPrids := [mkPropertyID 0x0C000000],
            rgData := [.bytesVal [0xAB]] } : PropertySetM)).cProperties ∧
    decodeOneVal c3bytes c3stream c3stream c3stream
      (decodePropertySet c3bytes c3stream c3stream c3stream 0)
      (mkPropertyID 0x0C000000) 6
      = .ok (.bytesVal (readBytes c3bytes 6 1), 6 + 1) :=
  ⟨rfl,
    (property_set_decode_spec c3bytes c3stream c3stream c3stream 0 0 _ 7
      rfl).2.2.2.1,
    (property_set_decode_spec c3bytes c3stream c3stream c3stream 0 0 _ 7
      rfl).2.2.2.2.2.2.1 (mkPropertyID 0x0C000000) 6 (by decide)⟩

/-! ## Claim C10: the files() map -/

/-- Keys present in the key column have a successful lookup. -/
theorem lookup_isSome_of_mem_keys {κ β : Type} [DecidableEq κ]
    (m : List (κ × β)) (k : κ) (h : k ∈ m.map Prod.fst) :
    (m.lookup k).isSome := by
  rw [List.lookup_isSome_iff]
  simp only [List.mem_map] at h
  obtain ⟨pr, hpr, hk⟩ := h
  exact ⟨pr, hpr, by simp [hk]⟩

/-- Looking up the overwritten key after the map-based in-place update. -/
theorem lookup_map_set {κ β : Type} [DecidableEq κ] (k : κ) (v : β) :
    ∀ m : List (κ × β),
      (m.map (fun pr => if pr.1 = k then (k, v) else pr)).lookup k
        = if (m.lookup k).isSome then some v else none := by
  intro m
  induction m with
  | nil => rfl
  | cons pr rest ih =>
    obtain ⟨k1, v1⟩ := pr
    by_cases hk : k1 = k
    · subst hk
      simp only [List.map_cons, if_pos rfl, List.lookup_cons, beq_self_eq_true,
        Option.isSome_some, if_true]
    · have h2 : (k == k1) = false := by simp [Ne.symm hk]
      simp only [List.map_cons, if_neg hk, List.lookup_cons, h2, ih]

/-- The in-place update of key `k` leaves other lookups unchanged. -/
theorem lookup_map_set_ne {κ β : Type} [DecidableEq κ] (k q : κ) (v : β)
    (hne : q ≠ k) : ∀ m : List (κ × β),
      (m.map (fun pr => if pr.1 = k then (k, v) else pr)).lookup q
        = m.lookup q := by
  intro m
  induction m with
  | nil => rfl
  | cons pr rest ih =>
    obtain ⟨k1, v1⟩ := pr
    by_cases hk : k1 = k
    · subst hk
      have h2 : (q == k1) = false := by simp [hne]
      simp only [List.map_cons, eq_self_iff_true, if_true, List.lookup_cons,
        h2, ih]
    · simp only [List.map_cons, if_neg hk, List.lookup_cons, ih]

/-- Python dict assignment makes the assigned key map to the value. -/
theorem pyDictSet_lookup_self {κ β : Type} [DecidableEq κ]
    (m : List (κ × β)) (k : κ) (v : β) :
    (pyDictSet m k v).lookup k = some v := by
  rw [pyDictSet]
  by_cases hm : (m.lookup k).isSome
  · rw [if_pos hm, lookup_map_set, if_pos hm]
  · rw [if_neg hm, List.lookup_append]
    have h0 : m.lookup k = none := Option.not_isSome_iff_eq_none.mp hm
    rw [h0]
    simp [List.lookup_cons]

/-- Python dict assignment leaves other keys unchanged. -/
theorem pyDictSet_lookup_ne {κ β : Type} [DecidableEq κ]
    (m : List (κ × β)) (k q : κ) (v : β) (hne : q ≠ k) :
    (pyDictSet m k v).lookup q = m.lookup q := by
  rw [pyDictSet]
  by_cases hm : (m.lookup k).isSome
  · rw [if_pos hm, lookup_map_set_ne k q v hne]
  · rw [if_neg hm, List.lookup_append]
    have h2 : (q == k) = false := by simp [hne]
    simp [List.lookup_cons, h2]

/-- The in-place update preserves the key column. -/
theorem map_fst_map_set {κ β : Type} [DecidableEq κ] (k : κ) (v : β) :
    ∀ m : List (κ × β),
      ((m.map (fun pr => if pr.1 = k then (k, v) else pr)).map Prod.fst)
        = m.map Prod.fst := by
  intro m
  induction m with
  | nil => rfl
  | cons pr rest ih =>
    obtain ⟨k1, v1⟩ := pr
    by_cases hk : k1 = k
    · subst hk
      simp [ih]
    · simp [if_neg hk, ih]

/-- Python dict assignment to an existing key preserves the key column. -/
theorem pyDictSet_keys_of_isSome {κ β : Type} [DecidableEq κ]
    (m : List (κ × β)) (k : κ) (v : β) (hm : (m.lookup k).isSome) :
    (pyDictSet m k v).map Prod.fst = m.map Prod.fst := by
  rw [pyDictSet, if_pos hm, map_fst_map_set]

/-- Per-constructor unfolding of the last-content accumulator. -/
theorem lastFdsoContent_cons_fdso (k d g c : String) (rest : List FilesNode) :
    lastFdsoContent k d (.fdso g c :: rest)
      = lastFdsoContent k (if g = k then c else d) rest := rfl

theorem lastFdsoContent_cons_odfd (k d ref ext oid : String)
    (rest : List FilesNode) :
    lastFdsoContent k d (.odfd ref ext oid :: rest)
      = lastFdsoContent k d rest := rfl

theorem lastOdfdExtension_cons_fdso (k d g c : String) (rest : List FilesNode) :
    lastOdfdExtension k d (.fdso g c :: rest) = lastOdfdExtension k d rest := rfl

theorem lastOdfdExtension_cons_odfd (k d ref ext oid : String)
    (rest : List FilesNode) :
    lastOdfdExtension k d (.odfd ref ext oid :: rest)
      = lastOdfdExtension k (if odfdKey ref = k then ext else d) rest := rfl

theorem lastOdfdIdentity_cons_fdso (k d g c : String) (rest : List FilesNode) :
    lastOdfdIdentity k d (.fdso g c :: rest) = lastOdfdIdentity k d rest := rfl

theorem lastOdfdIdentity_cons_odfd (k d ref ext oid : String)
    (rest : List FilesNode) :
    lastOdfdIdentity k d (.odfd ref ext oid :: rest)
      = lastOdfdIdentity k (if odfdKey ref = k then oid else d) rest := rfl

/-- A record with the standard key column keeps it under an update of
one of its fields. -/
theorem keys_after_set (e : List (String × String)) (f v : String)
    (hkeys : e.map Prod.fst = ["extension", "content", "identity"])
    (hf : f ∈ (["extension", "content", "identity"] : List String)) :
    (pyDictSet e f v).map Prod.fst = ["extension", "content", "identity"] := by
  rw [pyDictSet_keys_of_isSome e f v
    (lookup_isSome_of_mem_keys e f (by rw [hkeys]; exact hf))]
  exact hkeys

/-- Effect of one FileDataStoreObjectReferenceFND iteration on the three
fields of any key. -/
theorem getFilesStep_fdso_fields
    (m : List (String × List (String × String))) (g c k : String) :
    entryField (getFilesStep m (.fdso g c)) k "content"
      = (if g = k then c else entryField m k "content") ∧
    entryField (getFilesStep m (.fdso g c)) k "extension"
      = entryField m k "extension" ∧
    entryField (getFilesStep m (.fdso g c)) k "identity"
      = entryField m k "identity" := by
  by_cases hm : (m.lookup g).isSome
  · obtain ⟨e0, he0⟩ := Option.isSome_iff_exists.mp hm
    have hstep : getFilesStep m (.fdso g c)
        = pyDictSet m g (pyDictSet e0 "content" c) := by
      simp only [getFilesStep, he0, Option.isSome_some, if_true,
        Option.getD_some]
    by_cases hk : g = k
    · subst hk
      rw [hstep]
      have hself := pyDictSet_lookup_self m g (pyDictSet e0 "content" c)
      refine ⟨?_, ?_, ?_⟩
      · simp only [entryField, hself, pyDictSet_lookup_self,
          Option.getD_some]
        rw [if_true]
      · simp only [entryField, hself, he0,
          pyDictSet_lookup_ne e0 "content" "extension" c (by decide)]
      · simp only [entryField, hself, he0,
          pyDictSet_lookup_ne e0 "content" "identity" c (by decide)]
    · have hne : k ≠ g := fun hcc => hk hcc.symm
      rw [hstep]
      have hother := pyDictSet_lookup_ne m g k (pyDictSet e0 "content" c) hne
      refine ⟨?_, ?_, ?_⟩
      · rw [if_neg hk]
        simp only [entryField, hother]
      · simp only [entryField, hother]
      · simp only [entryField, hother]
  · have hmf : (m.lookup g).isSome = false := by
      rw [← Bool.not_eq_true]
      exact hm
    have hmn : m.lookup g = none := Option.not_isSome_iff_eq_none.mp hm
    have hstep : getFilesStep m (.fdso g c)
        = pyDictSet (pyDictSet m g initFileEntry) g
            (pyDictSet initFileEntry "content" c) := by
      simp only [getFilesStep, hmf, Bool.false_eq_true, if_false,
        pyDictSet_lookup_self, Option.getD_some]
    by_cases hk : g = k
    · subst hk
      rw [hstep]
      have hself := pyDictSet_lookup_self (pyDictSet m g initFileEntry) g
        (pyDictSet initFileEntry "content" c)
      refine ⟨?_, ?_, ?_⟩
      · simp only [entryField, hself, pyDictSet_lookup_self,
          Option.getD_some]
        rw [if_true]
      · simp only [entryField, hself, hmn,
          pyDictSet_lookup_ne initFileEntry "content" "extension" c
            (by decide)]
        decide
      · simp only [entryField, hself, hmn,
          pyDictSet_lookup_ne initFileEntry "content" "identity" c
            (by decide)]
        decide
    · have hne : k ≠ g := fun hcc => hk hcc.symm
      rw [hstep]
      have hother := pyDictSet_lookup_ne (pyDictSet m g initFileEntry) g k
        (pyDictSet initFileEntry "content" c) hne
      have hother2 := pyDictSet_lookup_ne m g k initFileEntry hne
      refine ⟨?_, ?_, ?_⟩
      · rw [if_neg hk]
        simp only [entryField, hother, hother2]
      · simp only [entryField, hother, hother2]
      · simp only [entryField, hother, hother2]

/-- Effect of one ObjectDeclarationFileData3RefCountFND iteration on the
three fields of any key. -/
theorem getFilesStep_odfd_fields
    (m : List (String × List (String × String))) (ref ext oid k : String) :
    entryField (getFilesStep m (.odfd ref ext oid)) k "content"
      = entryField m k "content" ∧
    entryField (getFilesStep m (.odfd ref ext oid)) k "extension"
      = (if odfdKey ref = k then ext else entryField m k "extension") ∧
    entryField (getFilesStep m (.odfd ref ext oid)) k "identity"
      = (if odfdKey ref = k then oid else entryField m k "identity") := by
  by_cases hm : (m.lookup (odfdKey ref)).isSome
  · obtain ⟨e0, he0⟩ := Option.isSome_iff_exists.mp hm
    have hstep : getFilesStep m (.odfd ref ext oid)
        = pyDictSet m (odfdKey ref)
            (pyDictSet (pyDictSet e0 "extension" ext) "identity" oid) := by
      simp only [getFilesStep, he0, Option.isSome_some, if_true,
        Option.getD_some]
    by_cases hk : odfdKey ref = k
    · subst hk
      rw [hstep]
      have hself := pyDictSet_lookup_self m (odfdKey ref)
        (pyDictSet (pyDictSet e0 "extension" ext) "identity" oid)
      refine ⟨?_, ?_, ?_⟩
      · simp only [entryField, hself, he0,
          pyDictSet_lookup_ne (pyDictSet e0 "extension" ext) "identity"
            "content" oid (by decide),
          pyDictSet_lookup_ne e0 "extension" "content" ext (by decide)]
      · simp only [entryField, hself,
          pyDictSet_lookup_ne (pyDictSet e0 "extension" ext) "identity"
            "extension" oid (by decide),
          pyDictSet_lookup_self, Option.getD_some]
        rw [if_true]
      · simp only [entryField, hself, pyDictSet_lookup_self,
          Option.getD_some]
        rw [if_true]
    · have hne : k ≠ odfdKey ref := fun hcc => hk hcc.symm
      rw [hstep]
      have hother := pyDictSet_lookup_ne m (odfdKey ref) k
        (pyDictSet (pyDictSet e0 "extension" ext) "identity" oid) hne
      refine ⟨?_, ?_, ?_⟩
      · simp only [entryField, hother]
      · rw [if_neg hk]
        simp only [entryField, hother]
      · rw [if_neg hk]
        simp only [entryField, hother]
  · have hmf : (m.lookup (odfdKey ref)).isSome = false := by
      rw [← Bool.not_eq_true]
      exact hm
    have hmn : m.lookup (odfdKey ref) = none :=
      Option.not_isSome_iff_eq_none.mp hm
    have hstep : getFilesStep m (.odfd ref ext oid)
        = pyDictSet (pyDictSet m (odfdKey ref) initFileEntry) (odfdKey ref)
            (pyDictSet (pyDictSet initFileEntry "extension" ext)
              "identity" oid) := by
      simp only [getFilesStep, hmf, Bool.false_eq_true, if_false,
        pyDictSet_lookup_self, Option.getD_some]
    by_cases hk : odfdKey ref = k
    · subst hk
      rw [hstep]
      have hself := pyDictSet_lookup_self
        (pyDictSet m (odfdKey ref) initFileEntry) (odfdKey ref)
        (pyDictSet (pyDictSet initFileEntry "extension" ext) "identity" oid)
      refine ⟨?_, ?_, ?_⟩
      · simp only [entryField, hself, hmn,
          pyDictSet_lookup_ne (pyDictSet initFileEntry "extension" ext)
            "identity" "content" oid (by decide),
          pyDictSet_lookup_ne initFileEntry "extension" "content" ext
            (by decide)]
        decide
      · simp only [entryField, hself,
          pyDictSet_lookup_ne (pyDictSet initFileEntry "extension" ext)
            "identity" "extension" oid (by decide),
          pyDictSet_lookup_self, Option.getD_some]
        rw [if_true]
      · simp only [entryField, hself, pyDictSet_lookup_self,
          Option.getD_some]
        rw [if_true]
    · have hne : k ≠ odfdKey ref := fun hcc => hk hcc.symm
      rw [hstep]
      have hother := pyDictSet_lookup_ne
        (pyDictSet m (odfdKey ref) initFileEntry) (odfdKey ref) k
        (pyDictSet (pyDictSet initFileEntry "extension" ext) "identity" oid)
        hne
      have hother2 := pyDictSet_lookup_ne m (odfdKey ref) k initFileEntry hne
      refine ⟨?_, ?_, ?_⟩
      · simp only [entryField, hother, hother2]
      · rw [if_neg hk]
        simp only [entryField, hother, hother2]
      · rw [if_neg hk]
        simp only [entryField, hother, hother2]

/-- One `get_files` iteration preserves the shape of every record. -/
theorem getFilesStep_keys (m : List (String × List (String × String)))
    (n : FilesNode)
    (hInv : ∀ k0 e0, m.lookup k0 = some e0 →
      e0.map Prod.fst = ["extension", "content", "identity"]) :
    ∀ k0 e0, (getFilesStep m n).lookup k0 = some e0 →
      e0.map Prod.fst = ["extension", "content", "identity"] := by
  cases n with
  | fdso g c =>
    by_cases hm : (m.lookup g).isSome
    · obtain ⟨e1, he1⟩ := Option.isSome_iff_exists.mp hm
      have hstep : getFilesStep m (.fdso g c)
          = pyDictSet m g (pyDictSet e1 "content" c) := by
        simp only [getFilesStep, he1, Option.isSome_some, if_true,
          Option.getD_some]
      intro k0 e0 h0
      rw [hstep] at h0
      by_cases hk : k0 = g
      · rw [hk, pyDictSet_lookup_self] at h0
        injection h0 with h0'
        rw [← h0']
        exact keys_after_set e1 "content" c (hInv g e1 he1) (by decide)
      · rw [pyDictSet_lookup_ne m g k0 _ hk] at h0
        exact hInv k0 e0 h0
    · have hmf : (m.lookup g).isSome = false := by
        rw [← Bool.not_eq_true]
        exact hm
      have hstep : getFilesStep m (.fdso g c)
          = pyDictSet (pyDictSet m g initFileEntry) g
              (pyDictSet initFileEntry "content" c) := by
        simp only [getFilesStep, hmf, Bool.false_eq_true, if_false,
          pyDictSet_lookup_self, Option.getD_some]
      intro k0 e0 h0
      rw [hstep] at h0
      by_cases hk : k0 = g
      · rw [hk, pyDictSet_lookup_self] at h0
        injection h0 with h0'
        rw [← h0']
        exact keys_after_set initFileEntry "content" c rfl (by decide)
      · rw [pyDictSet_lookup_ne _ g k0 _ hk,
          pyDictSet_lookup_ne m g k0 _ hk] at h0
        exact hInv k0 e0 h0
  | odfd ref ext oid =>
    by_cases hm : (m.lookup (odfdKey ref)).isSome
    · obtain ⟨e1, he1⟩ := Option.isSome_iff_exists.mp hm
      have hstep : getFilesStep m (.odfd ref ext oid)
          = pyDictSet m (odfdKey ref)
              (pyDictSet (pyDictSet e1 "extension" ext) "identity" oid) := by
        simp only [getFilesStep, he1, Option.isSome_some, if_true,
          Option.getD_some]
      intro k0 e0 h0
      rw [hstep] at h0
      by_cases hk : k0 = odfdKey ref
      · rw [hk, pyDictSet_lookup_self] at h0
        injection h0 with h0'
        rw [← h0']
        exact keys_after_set _ "identity" oid
          (keys_after_set e1 "extension" ext (hInv (odfdKey ref) e1 he1)
            (by decide))
          (by decide)
      · rw [pyDictSet_lookup_ne m (odfdKey ref) k0 _ hk] at h0
        exact hInv k0 e0 h0
    · have hmf : (m.lookup (odfdKey ref)).isSome = false := by
        rw [← Bool.not_eq_true]
        exact hm
      have hstep : getFilesStep m (.odfd ref ext oid)
          = pyDictSet (pyDictSet m (odfdKey ref) initFileEntry) (odfdKey ref)
              (pyDictSet (pyDictSet initFileEntry "extension" ext)
                "identity" oid) := by
        simp only [getFilesStep, hmf, Bool.false_eq_true, if_false,
          pyDictSet_lookup_self, Option.getD_some]
      intro k0 e0 h0
      rw [hstep] at h0
      by_cases hk : k0 = odfdKey ref
      · rw [hk, pyDictSet_lookup_self] at h0
        injection h0 with h0'
        rw [← h0']
        exact keys_after_set _ "identity" oid
          (keys_after_set initFileEntry "extension" ext rfl (by decide))
          (by decide)
      · rw [pyDictSet_lookup_ne _ (odfdKey ref) k0 _ hk,
          pyDictSet_lookup_ne m (odfdKey ref) k0 _ hk] at h0
        exact hInv k0 e0 h0

/-- Invariant of the whole `for node in nodes` loop of `get_files`: every
present record keeps the three standard keys, and its fields carry the
value of the last contributing node of the matching kind (or the value
already in the accumulator). -/
theorem getFiles_fold_spec (nodes : List FilesNode) :
    ∀ m : List (String × List (String × String)),
      (∀ k0 e0, m.lookup k0 = some e0 →
        e0.map Prod.fst = ["extension", "content", "identity"]) →
      ∀ k e, (nodes.foldl getFilesStep m).lookup k = some e →
        e.map Prod.fst = ["extension", "content", "identity"] ∧
        e.lookup "content"
          = some (lastFdsoContent k (entryField m k "content") nodes) ∧
        e.lookup "extension"
          = some (lastOdfdExtension k (entryField m k "extension") nodes) ∧
        e.lookup "identity"
          = some (lastOdfdIdentity k (entryField m k "identity") nodes) := by
  induction nodes with
  | nil =>
    intro m hInv k e h
    rw [List.foldl_nil] at h
    have hkeys := hInv k e h
    have hfield : ∀ f, f ∈ (["extension", "content", "identity"] : List String) →
        e.lookup f = some (entryField m k f) := by
      intro f hf
      have hsome := lookup_isSome_of_mem_keys e f (by rw [hkeys]; exact hf)
      obtain ⟨v, hv⟩ := Option.isSome_iff_exists.mp hsome
      rw [hv]
      simp [entryField, h, hv]
    exact ⟨hkeys, hfield "content" (by decide), hfield "extension" (by decide),
      hfield "identity" (by decide)⟩
  | cons n rest ih =>
    intro m hInv k e h
    rw [List.foldl_cons] at h
    have hInv2 := getFilesStep_keys m n hInv
    obtain ⟨hk, hc, he, hi⟩ := ih (getFilesStep m n) hInv2 k e h
    cases n with
    | fdso g c =>
      obtain ⟨hf1, hf2, hf3⟩ := getFilesStep_fdso_fields m g c k
      refine ⟨hk, ?_, ?_, ?_⟩
      · rw [lastFdsoContent_cons_fdso, hc, hf1]
      · rw [lastOdfdExtension_cons_fdso, he, hf2]
      · rw [lastOdfdIdentity_cons_fdso, hi, hf3]
    | odfd ref ext oid =>
      obtain ⟨hf1, hf2, hf3⟩ := getFilesStep_odfd_fields m ref ext oid k
      refine ⟨hk, ?_, ?_, ?_⟩
      · rw [lastFdsoContent_cons_odfd, hc, hf1]
      · rw [lastOdfdExtension_cons_odfd, he, hf2]
      · rw [lastOdfdIdentity_cons_odfd, hi, hf3]

/-- A key never contributed by a FileDataStoreObjectReferenceFND keeps
the default content. -/
theorem lastFdsoContent_of_none (k d : String) :
    ∀ nodes : List FilesNode, (∀ n ∈ nodes, isFdsoWith k n = false) →
      lastFdsoContent k d nodes = d := by
  intro nodes
  induction nodes with
  | nil => intro _; rfl
  | cons n rest ih =>
    intro hno
    cases n with
    | fdso g c =>
      have hg : (g == k) = false := hno (.fdso g c) (List.mem_cons_self _ _)
      have hgk : ¬ (g = k) := by simpa using hg
      rw [lastFdsoContent_cons_fdso, if_neg hgk]
      exact ih fun n2 hn2 => hno n2 (List.mem_cons_of_mem _ hn2)
    | odfd ref ext oid =>
      rw [lastFdsoContent_cons_odfd]
      exact ih fun n2 hn2 => hno n2 (List.mem_cons_of_mem _ hn2)

/-- A key never contributed by an ObjectDeclarationFileData3RefCountFND
keeps the default extension. -/
theorem lastOdfdExtension_of_none (k d : String) :
    ∀ nodes : List FilesNode, (∀ n ∈ nodes, isOdfdWith k n = false) →
      lastOdfdExtension k d nodes = d := by
  intro nodes
  induction nodes with
  | nil => intro _; rfl
  | cons n rest ih =>
    intro hno
    cases n with
    | fdso g c =>
      rw [lastOdfdExtension_cons_fdso]
      exact ih fun n2 hn2 => hno n2 (List.mem_cons_of_mem _ hn2)
    | odfd ref ext oid =>
      have hg : (odfdKey ref == k) = false :=
        hno (.odfd ref ext oid) (List.mem_cons_self _ _)
      have hgk : ¬ (odfdKey ref = k) := by simpa using hg
      rw [lastOdfdExtension_cons_odfd, if_neg hgk]
      exact ih fun n2 hn2 => hno n2 (List.mem_cons_of_mem _ hn2)

/-- A key never contributed by an ObjectDeclarationFileData3RefCountFND
keeps the default identity. -/
theorem lastOdfdIdentity_of_none (k d : String) :
    ∀ nodes : List FilesNode, (∀ n ∈ nodes, isOdfdWith k n = false) →
      lastOdfdIdentity k d nodes = d := by
  intro nodes
  induction nodes with
  | nil => intro _; rfl
  | cons n rest ih =>
    intro hno
    cases n with
    | fdso g c =>
      rw [lastOdfdIdentity_cons_fdso]
      exact ih fun n2 hn2 => hno n2 (List.mem_cons_of_mem _ hn2)
    | odfd ref ext oid =>
      have hg : (odfdKey ref == k) = false :=
        hno (.odfd ref ext oid) (List.mem_cons_self _ _)
      have hgk : ¬ (odfdKey ref = k) := by simpa using hg
      rw [lastOdfdIdentity_cons_odfd, if_neg hgk]
      exact ih fun n2 hn2 => hno n2 (List.mem_cons_of_mem _ hn2)

/-- C10: every value of the map returned by `get_files` is a record with
exactly the keys extension, content and identity; a guid contributed
only by FileDataStoreObjectReferenceFND nodes has extension == "" and
identity == ""; one contributed only by
ObjectDeclarationFileData3RefCountFND nodes has content == ""; and in
general content is the FileData of the last contributing
FileDataStoreObjectReferenceFND while extension and identity come from
the last contributing ObjectDeclarationFileData3RefCountFND, so a guid
contributed by both kinds has all three fields populated from the
respective nodes. -/
theorem files_query_spec (nodes : List FilesNode) (k : String)
    (e : List (String × String))
    (h : (getFiles nodes).lookup k = some e) :
    e.map Prod.fst = ["extension", "content", "identity"] ∧
    e.lookup "content" = some (lastFdsoContent k "" nodes) ∧
    e.lookup "extension" = some (lastOdfdExtension k "" nodes) ∧
    e.lookup "identity" = some (lastOdfdIdentity k "" nodes) ∧
    ((∀ n ∈ nodes, isOdfdWith k n = false) →
      e.lookup "extension" = some "" ∧ e.lookup "identity" = some "") ∧
    ((∀ n ∈ nodes, isFdsoWith k n = false) →
      e.lookup "content" = some "") := by
  have hbase : ∀ k0 e0,
      ([] : List (String × List (String × String))).lookup k0 = some e0 →
      e0.map Prod.fst = ["extension", "content", "identity"] := by
    intro k0 e0 h0
    simp at h0
  obtain ⟨h1, h2, h3, h4⟩ := getFiles_fold_spec nodes [] hbase k e h
  have ec : entryField [] k "content" = "" := rfl
  have ee : entryField [] k "extension" = "" := rfl
  have ei : entryField [] k "identity" = "" := rfl
  rw [ec] at h2
  rw [ee] at h3
  rw [ei] at h4
  refine ⟨h1, h2, h3, h4, ?_, ?_⟩
  · intro hno
    constructor
    · rw [h3, lastOdfdExtension_of_none k "" nodes hno]
    · rw [h4, lastOdfdIdentity_of_none k "" nodes hno]
  · intro hno
    rw [h2, lastFdsoContent_of_none k "" nodes hno]

/-- Witness for C10 on a guid contributed by both node kinds. -/
theorem files_query_spec_witness :
    (getFiles c10nodes).lookup "1111"
      = some [("extension", ".png"), ("content", "PNGBYTES"),
              ("identity", "oid1")] ∧
    ([("extension", ".png"), ("content", "PNGBYTES"), ("identity", "oid1")]
        : List (String × String)).map Prod.fst
      = ["extension", "content", "identity"] ∧
    ([("extension", ".png"), ("content", "PNGBYTES"), ("identity", "oid1")]
        : List (String × String)).lookup "content"
      = some (lastFdsoContent "1111" "" c10nodes) :=
  ⟨by decide,
    (files_query_spec c10nodes "1111"
      [("extension", ".png"), ("content", "PNGBYTES"), ("identity", "oid1")]
      (by decide)).1,
    (files_query_spec c10nodes "1111"
      [("extension", ".png"), ("content", "PNGBYTES"), ("identity", "oid1")]
      (by decide)).2.1⟩

end PyOneNote
